import Mathlib

/-!
The pjmedia session: stream negotiation and session management.

A shallow embedding of `pjmedia/src/pjmedia/session.c`.

* `pjmedia_stream_info_from_sdp` derives one stream's parameters from a
  local and a remote SDP description.
* `pjmedia_session_create` and the `pjmedia_session_*` operations own the
  streams created from those parameters.

Functions that `session.c` calls but does not define (pjlib string and
socket helpers whose behaviour is not fixed by the C standard library, the
SDP attribute helpers, the codec manager and the stream object) are the
fields of `Env`; the theorems hold for every `Env`.
-/

namespace PjMedia

/-! ## Strings and status codes -/

/-- A `pj_str_t`: a counted string, here the list of its characters. -/
abbrev pj_str_t := List Char

/-- The non-zero `pj_status_t` values. The named ones are those `session.c`
returns itself; `other` stands for any code a callee reports. -/
inductive pj_errno where
  | PJ_EINVAL
  | PJ_ENOMEM
  | PJMEDIA_SDP_EMISSINGCONN
  | PJMEDIA_EINVALIMEDIATYPE
  | PJMEDIA_EINVALIDIP
  | PJMEDIA_EINVALIDPT
  | PJMEDIA_EMISSINGRTPMAP
  | other (code : Nat)
  deriving DecidableEq, Repr

/-- A `pj_status_t`: `PJ_SUCCESS` or an error code. -/
inductive pj_status_t where
  | PJ_SUCCESS
  | error (e : pj_errno)
  deriving DecidableEq, Repr

open pj_errno pj_status_t

/-- The function `pj_isdigit`: the character is one of `0` .. `9`. -/
def pj_isdigit (c : Char) : Bool := decide (48 ≤ c.toNat ∧ c.toNat ≤ 57)

/-- The function `pj_tolower` on one character (ASCII letters only). -/
def pj_tolower (c : Char) : Char :=
  if 65 ≤ c.toNat ∧ c.toNat ≤ 90 then Char.ofNat (c.toNat + 32) else c

/-- The function `pj_strcmp`: zero exactly when the two strings are equal, otherwise the
sign of the first difference. -/
def pj_strcmp : pj_str_t → pj_str_t → Int
  | [], [] => 0
  | [], _ :: _ => -1
  | _ :: _, [] => 1
  | a :: s, b :: t =>
    if a = b then pj_strcmp s t else if a.toNat < b.toNat then -1 else 1

/-- The function `pj_stricmp`: as `pj_strcmp`, after folding both strings to lower case. -/
def pj_stricmp (s t : pj_str_t) : Int :=
  pj_strcmp (s.map pj_tolower) (t.map pj_tolower)

def ID_AUDIO : pj_str_t := "audio".toList
def ID_VIDEO : pj_str_t := "video".toList
def ID_RTPMAP : pj_str_t := "rtpmap".toList
def ID_TELEPHONE_EVENT : pj_str_t := "telephone-event".toList
def STR_INACTIVE : pj_str_t := "inactive".toList
def STR_SENDONLY : pj_str_t := "sendonly".toList
def STR_RECVONLY : pj_str_t := "recvonly".toList

/-! ## SDP descriptions -/

/-- An SDP attribute (`a=name:value`). -/
structure pjmedia_sdp_attr where
  name : pj_str_t
  value : pj_str_t
  deriving DecidableEq, Repr

/-- An SDP connection line (`c=`); only the address is read here. -/
structure pjmedia_sdp_conn where
  addr : pj_str_t
  deriving DecidableEq, Repr

/-- An SDP media line with its attributes. `media`, `port` and `fmt` are the
fields of `desc`; `fmt` holds `desc.fmt[0 .. fmt_count)` and `attr` holds
`attr[0 .. attr_count)`. -/
structure pjmedia_sdp_media where
  media : pj_str_t
  port : Nat
  fmt : List pj_str_t
  conn : Option pjmedia_sdp_conn
  attr : List pjmedia_sdp_attr
  deriving DecidableEq, Repr

/-- An SDP session: the session-level connection and `media[0 .. media_count)`. -/
structure pjmedia_sdp_session where
  conn : Option pjmedia_sdp_conn
  media : List pjmedia_sdp_media
  deriving DecidableEq, Repr

/-- A parsed `rtpmap` attribute. -/
structure pjmedia_sdp_rtpmap where
  pt : pj_str_t
  enc_name : pj_str_t
  clock_rate : Nat
  deriving DecidableEq, Repr

/-! ## Stream info -/

inductive pjmedia_type where
  | PJMEDIA_TYPE_UNKNOWN
  | PJMEDIA_TYPE_AUDIO
  | PJMEDIA_TYPE_VIDEO
  deriving DecidableEq, Repr

inductive pjmedia_dir where
  | PJMEDIA_DIR_NONE
  | PJMEDIA_DIR_ENCODING
  | PJMEDIA_DIR_DECODING
  | PJMEDIA_DIR_ENCODING_DECODING
  deriving DecidableEq, Repr

open pjmedia_type pjmedia_dir

/-- A `pjmedia_sock_info`, the caller's socket pair for one stream; opaque
to `session.c`, which only copies it. -/
structure pjmedia_sock_info where
  id : Nat
  deriving DecidableEq, Repr

structure pj_sockaddr_in where
  sin_family : Nat
  sin_port : Nat
  sin_addr : Nat
  deriving DecidableEq, Repr

structure pjmedia_codec_info where
  type : pjmedia_type
  pt : Nat
  encoding_name : pj_str_t
  sample_rate : Nat
  deriving DecidableEq, Repr

/-- A `pjmedia_stream_info`. `tx_event_pt` and `rx_event_pt` are signed
(`int`): the source stores `-1` for "no telephone-event payload type", and a
payload number read by `pj_strtoul` is converted to `int` when it is stored. -/
structure pjmedia_stream_info where
  type : pjmedia_type
  dir : pjmedia_dir
  sock_info : pjmedia_sock_info
  rem_addr : pj_sockaddr_in
  fmt : pjmedia_codec_info
  tx_pt : Nat
  tx_event_pt : Int
  rx_event_pt : Int
  ssrc : Nat
  jb_init : Nat
  deriving DecidableEq, Repr

/-- The stream info after `pj_memset(si, 0, sizeof( *si))`. -/
def zero_stream_info : pjmedia_stream_info :=
  { type := PJMEDIA_TYPE_UNKNOWN, dir := PJMEDIA_DIR_NONE, sock_info := ⟨0⟩,
    rem_addr := ⟨0, 0, 0⟩, fmt := ⟨PJMEDIA_TYPE_UNKNOWN, 0, [], 0⟩,
    tx_pt := 0, tx_event_pt := 0, rx_event_pt := 0, ssrc := 0, jb_init := 0 }

/-- The value of `PJ_AF_INET`. -/
def PJ_AF_INET : Nat := 2

/-! ## Collaborators -/

/-- A `pjmedia_stream` handle. -/
structure pjmedia_stream where
  id : Nat
  deriving DecidableEq, Repr

/-- One call made to the stream object. `idx` is the slot `session->stream[idx]`
the argument was read from (for `create`, the slot the result is stored to);
`s` is the content of that slot, `none` for a null pointer. -/
inductive StreamCall where
  | create (idx : Nat) (si : pjmedia_stream_info)
  | start (idx : Nat) (s : Option pjmedia_stream)
  | destroy (idx : Nat) (s : Option pjmedia_stream)
  | pause (idx : Nat) (s : Option pjmedia_stream) (dir : pjmedia_dir)
  | resume (idx : Nat) (s : Option pjmedia_stream) (dir : pjmedia_dir)
  | get_port (idx : Nat) (s : Option pjmedia_stream)
  | get_stat (idx : Nat) (s : Option pjmedia_stream)
  | dial_dtmf (idx : Nat) (s : Option pjmedia_stream) (digits : pj_str_t)
  | check_dtmf (idx : Nat) (s : Option pjmedia_stream)
  | get_dtmf (idx : Nat) (s : Option pjmedia_stream)
  deriving DecidableEq, Repr

/-- The state of the stream object as far as `session.c` can tell: the calls
made to it so far, oldest first. -/
abbrev World := List StreamCall

/-- The functions `session.c` calls and does not define. The stream
functions answer from the calls made so far and their argument, so any
deterministic stream implementation is an `Env`. -/
structure Env where
  /-- The constant `PJMEDIA_MAX_SDP_MEDIA`, the capacity of `stream_info[]` and `stream[]`. -/
  PJMEDIA_MAX_SDP_MEDIA : Nat
  /-- The function `pj_strtoul`, the number a string denotes. -/
  pj_strtoul : pj_str_t → Nat
  /-- The function `pj_htons`. -/
  pj_htons : Nat → Nat
  /-- The value `pj_inet_addr(..).s_addr`. -/
  pj_inet_addr : pj_str_t → Nat
  /-- The function `pj_inet_aton`: `none` when it returns 0, else the address it stores. -/
  pj_inet_aton : pj_str_t → Option Nat
  /-- The call `pjmedia_sdp_media_find_attr(m, name, fmt)`; `fmt = none` is `NULL`. -/
  pjmedia_sdp_media_find_attr :
    pjmedia_sdp_media → pj_str_t → Option pj_str_t → Option pjmedia_sdp_attr
  /-- The function `pjmedia_sdp_attr_to_rtpmap`: the rtpmap, or the status it fails with. -/
  pjmedia_sdp_attr_to_rtpmap : pjmedia_sdp_attr → Except pj_errno pjmedia_sdp_rtpmap
  /-- The function `pjmedia_sdp_attr_get_rtpmap`: the rtpmap, or the status it fails with. -/
  pjmedia_sdp_attr_get_rtpmap : pjmedia_sdp_attr → Except pj_errno pjmedia_sdp_rtpmap
  /-- The function `pjmedia_codec_mgr_get_codec_info` on the endpoint's codec manager. -/
  pjmedia_codec_mgr_get_codec_info : Nat → Except pj_errno pjmedia_codec_info
  /-- The function `pjmedia_stream_create`: the new stream, or the status it fails with. -/
  pjmedia_stream_create : World → pjmedia_stream_info → Except pj_errno pjmedia_stream
  /-- The function `pjmedia_stream_start`. -/
  pjmedia_stream_start : World → Option pjmedia_stream → pj_status_t
  /-- The function `pjmedia_stream_pause`. -/
  pjmedia_stream_pause : World → Option pjmedia_stream → pjmedia_dir → pj_status_t
  /-- The function `pjmedia_stream_resume`. -/
  pjmedia_stream_resume : World → Option pjmedia_stream → pjmedia_dir → pj_status_t
  /-- The function `pjmedia_stream_get_port`: the status and the port stored to `*p_port`. -/
  pjmedia_stream_get_port : World → Option pjmedia_stream → pj_status_t × Option Nat
  /-- The function `pjmedia_stream_get_stat`: the status and the statistics stored to `*stat`. -/
  pjmedia_stream_get_stat : World → Option pjmedia_stream → pj_status_t × Option Nat
  /-- The function `pjmedia_stream_dial_dtmf`. -/
  pjmedia_stream_dial_dtmf : World → Option pjmedia_stream → pj_str_t → pj_status_t
  /-- The function `pjmedia_stream_check_dtmf`. -/
  pjmedia_stream_check_dtmf : World → Option pjmedia_stream → pj_status_t
  /-- The function `pjmedia_stream_get_dtmf`: the status and the digits stored to the buffer. -/
  pjmedia_stream_get_dtmf : World → Option pjmedia_stream → pj_status_t × Option pj_str_t
  /-- The stream info spelled by the `sizeof(pjmedia_stream_info)` bytes that
  start at `&session->stream[i]`, given the slots `stream[i ..]` and the
  `user_data` field that follows them; `none` when that block does not lie
  inside the session object. What it is depends on the memory layout. -/
  stream_slots_as_info : List (Option pjmedia_stream) → Nat → Option pjmedia_stream_info

/-! ## `pjmedia_stream_info_from_sdp` -/

/-- The media lines and connections lines 87-96 of `session.c` settle on. -/
structure Resolved where
  local_m : pjmedia_sdp_media
  rem_m : pjmedia_sdp_media
  local_conn : pjmedia_sdp_conn
  rem_conn : pjmedia_sdp_conn
  deriving DecidableEq, Repr

/-- Lines 81-96: argument validation and connection resolution. Nothing has
been written to `*si` when this part returns. -/
def resolve (loc rem : pjmedia_sdp_session) (stream_idx : Nat) :
    Except pj_errno Resolved :=
  match loc.media[stream_idx]? with
  | none => .error PJ_EINVAL
  | some local_m =>
    match rem.media[stream_idx]? with
    | none => .error PJ_EINVAL
    | some rem_m =>
      match (if local_m.conn.isSome then local_m.conn else loc.conn) with
      | none => .error PJMEDIA_SDP_EMISSINGCONN
      | some local_conn =>
        match (if rem_m.conn.isSome then rem_m.conn else rem.conn) with
        | none => .error PJMEDIA_SDP_EMISSINGCONN
        | some rem_conn => .ok ⟨local_m, rem_m, local_conn, rem_conn⟩

/-- The string `desc.fmt[0]`. A media line carries at least one format; for an empty
list the model reads the empty string. -/
def fmt0 (m : pjmedia_sdp_media) : pj_str_t := m.fmt.headD []

/-- The character `*s.ptr`, the first character of a string (NUL when it is empty). -/
def first_char (s : pj_str_t) : Char := s.headD (Char.ofNat 0)

/-- Lines 119-148: the media direction. -/
def media_direction (E : Env) (r : Resolved) : pjmedia_dir :=
  if r.local_m.port = 0 ∨
      E.pj_inet_addr r.local_conn.addr = 0 ∨
      E.pj_inet_addr r.rem_conn.addr = 0 ∨
      (E.pjmedia_sdp_media_find_attr r.local_m STR_INACTIVE none).isSome then
    PJMEDIA_DIR_NONE
  else if (E.pjmedia_sdp_media_find_attr r.local_m STR_SENDONLY none).isSome then
    PJMEDIA_DIR_ENCODING
  else if (E.pjmedia_sdp_media_find_attr r.local_m STR_RECVONLY none).isSome then
    PJMEDIA_DIR_DECODING
  else
    PJMEDIA_DIR_ENCODING_DECODING

/-- The test of lines 239-251 on one remote format: it is dynamic, has an
rtpmap that parses, and that rtpmap agrees with the local one. -/
def remote_fmt_matches (E : Env) (rem_m : pjmedia_sdp_media)
    (rtpmap : pjmedia_sdp_rtpmap) (f : pj_str_t) : Bool :=
  if E.pj_strtoul f < 96 then false
  else
    match E.pjmedia_sdp_media_find_attr rem_m ID_RTPMAP (some f) with
    | none => false
    | some r_attr =>
      match E.pjmedia_sdp_attr_get_rtpmap r_attr with
      | .error _ => false
      | .ok r_rtpmap =>
        decide (pj_stricmp rtpmap.enc_name r_rtpmap.enc_name = 0 ∧
          rtpmap.clock_rate = r_rtpmap.clock_rate)

/-- Lines 233-257: the loop over the remote formats `fmt[i ..]`, started with
the current `si->tx_pt`; the first matching format sets it and breaks. -/
def scan_remote_fmt (E : Env) (rem_m : pjmedia_sdp_media)
    (rtpmap : pjmedia_sdp_rtpmap) : List pj_str_t → Nat → Nat
  | [], tx_pt => tx_pt
  | f :: fs, tx_pt =>
    if remote_fmt_matches E rem_m rtpmap f then E.pj_strtoul f
    else scan_remote_fmt E rem_m rtpmap fs tx_pt

/-- The conversion of an unsigned value to a 32-bit `int`: the cast
`(int)stream_cnt`, and the assignment of the result of `pj_strtoul` to the
signed fields `tx_event_pt` and `rx_event_pt`. Below `2 ^ 31` the value is
kept; above, the low 32 bits are read as a two's complement number. -/
def int_of_unsigned (n : Nat) : Int :=
  if n % 2 ^ 32 < 2 ^ 31 then ((n % 2 ^ 32 : Nat) : Int) else ((n % 2 ^ 32 : Nat) : Int) - 2 ^ 32

/-- Lines 267-279 (and 283-295): the loop over the attributes `attr[i ..]`,
started with the current event payload type. The first telephone-event rtpmap
stores its payload number, converted to `int`, and breaks. -/
def scan_event_pt (E : Env) : List pjmedia_sdp_attr → Int → Int
  | [], event_pt => event_pt
  | attr :: rest, event_pt =>
    if pj_strcmp attr.name ID_RTPMAP ≠ 0 then scan_event_pt E rest event_pt
    else
      match E.pjmedia_sdp_attr_get_rtpmap attr with
      | .error _ => scan_event_pt E rest event_pt
      | .ok r =>
        if pj_strcmp r.enc_name ID_TELEPHONE_EVENT = 0 then int_of_unsigned (E.pj_strtoul r.pt)
        else scan_event_pt E rest event_pt

/-- Lines 265-302: both telephone-event scans, then `PJ_SUCCESS`. -/
def from_sdp_dtmf (E : Env) (r : Resolved) (si : pjmedia_stream_info) :
    pj_status_t × pjmedia_stream_info :=
  let si := { si with tx_event_pt := scan_event_pt E r.local_m.attr (-1) }
  let si := { si with rx_event_pt := scan_event_pt E r.rem_m.attr (-1) }
  (PJ_SUCCESS, si)

/-- Lines 175-210: a static payload type. -/
def from_sdp_static (E : Env) (r : Resolved) (pt : Nat) (si : pjmedia_stream_info) :
    pj_status_t × pjmedia_stream_info :=
  let has_rtpmap : Option pjmedia_sdp_rtpmap :=
    match E.pjmedia_sdp_media_find_attr r.local_m ID_RTPMAP (some (fmt0 r.local_m)) with
    | none => none
    | some attr =>
      match E.pjmedia_sdp_attr_to_rtpmap attr with
      | .error _ => none
      | .ok rtpmap => some rtpmap
  match has_rtpmap with
  | some rtpmap =>
    let si := { si with fmt := { type := si.type, pt := E.pj_strtoul (fmt0 r.local_m),
                                 encoding_name := rtpmap.enc_name,
                                 sample_rate := rtpmap.clock_rate } }
    from_sdp_dtmf E r { si with tx_pt := pt }
  | none =>
    match E.pjmedia_codec_mgr_get_codec_info pt with
    | .error status => (error status, si)
    | .ok fmt => from_sdp_dtmf E r { { si with fmt := fmt } with tx_pt := pt }

/-- Lines 212-261: a dynamic payload type. -/
def from_sdp_dynamic (E : Env) (r : Resolved) (si : pjmedia_stream_info) :
    pj_status_t × pjmedia_stream_info :=
  match E.pjmedia_sdp_media_find_attr r.local_m ID_RTPMAP (some (fmt0 r.local_m)) with
  | none => (error PJMEDIA_EMISSINGRTPMAP, si)
  | some attr =>
    match E.pjmedia_sdp_attr_to_rtpmap attr with
    | .error status => (error status, si)
    | .ok rtpmap =>
      let si := { si with fmt := { type := si.type, pt := E.pj_strtoul (fmt0 r.local_m),
                                   encoding_name := rtpmap.enc_name,
                                   sample_rate := rtpmap.clock_rate } }
      let si := { si with tx_pt := 0xFFFF }
      let si := { si with tx_pt := scan_remote_fmt E r.rem_m rtpmap r.rem_m.fmt si.tx_pt }
      if si.tx_pt = 0xFFFF then (error PJMEDIA_EMISSINGRTPMAP, si)
      else from_sdp_dtmf E r si

/-- Lines 161-261: the payload type and the codec. -/
def from_sdp_codec (E : Env) (r : Resolved) (si : pjmedia_stream_info) :
    pj_status_t × pjmedia_stream_info :=
  if !pj_isdigit (first_char (fmt0 r.local_m)) || !pj_isdigit (first_char (fmt0 r.rem_m)) then
    (error PJMEDIA_EINVALIDPT, si)
  else
    let pt := E.pj_strtoul (fmt0 r.local_m)
    if pt < 96 then from_sdp_static E r pt si else from_sdp_dynamic E r si

/-- Lines 119-159: direction and remote address, then the codec. -/
def from_sdp_dir_addr (E : Env) (r : Resolved) (si : pjmedia_stream_info) :
    pj_status_t × pjmedia_stream_info :=
  let si := { si with dir := media_direction E r }
  let si := { si with rem_addr := { si.rem_addr with sin_family := PJ_AF_INET } }
  let si := { si with rem_addr := { si.rem_addr with sin_port := E.pj_htons r.rem_m.port } }
  match E.pj_inet_aton r.rem_conn.addr with
  | none => (error PJMEDIA_EINVALIDIP, si)
  | some a =>
    from_sdp_codec E r { si with rem_addr := { si.rem_addr with sin_addr := a } }

/-- Lines 99-302: everything after the connections are resolved, starting
from the zeroed `*si`. -/
def from_sdp_fill (E : Env) (r : Resolved) : pj_status_t × pjmedia_stream_info :=
  let si := zero_stream_info
  if pj_stricmp r.local_m.media ID_AUDIO = 0 then
    from_sdp_dir_addr E r { si with type := PJMEDIA_TYPE_AUDIO }
  else if pj_stricmp r.local_m.media ID_VIDEO = 0 then
    from_sdp_dir_addr E r { si with type := PJMEDIA_TYPE_VIDEO }
  else
    (error PJMEDIA_EINVALIMEDIATYPE, { si with type := PJMEDIA_TYPE_UNKNOWN })

/-- The function `pjmedia_stream_info_from_sdp` (lines 62-303). The result is the status
and what the call wrote to `*si`: `none` when it returned before the
`pj_memset`, so `*si` is as the caller left it; otherwise the whole new
content, which does not depend on the old one because of the `pj_memset`. -/
def pjmedia_stream_info_from_sdp (E : Env) (loc rem : pjmedia_sdp_session)
    (stream_idx : Nat) : pj_status_t × Option pjmedia_stream_info :=
  match resolve loc rem stream_idx with
  | .error status => (error status, none)
  | .ok r => ((from_sdp_fill E r).1, some (from_sdp_fill E r).2)

/-! ## The session -/

/-- What a call does: it returns, or it reads or writes outside an array
(`session->stream_info[]`, `session->stream[]`, the caller's `skinfo[]`), or
dereferences a null session, after which C defines nothing. -/
inductive Outcome (α : Type) where
  | returns (a : α)
  | undefined
  deriving DecidableEq, Repr

/-- A `struct pjmedia_session`. `stream_info` and `stream` are the two arrays
of `PJMEDIA_MAX_SDP_MEDIA` entries; a null `stream[i]` is `none`. -/
structure pjmedia_session where
  stream_cnt : Nat
  stream_info : List pjmedia_stream_info
  stream : List (Option pjmedia_stream)
  user_data : Nat
  deriving DecidableEq, Repr

/-- A `pjmedia_session_info`. -/
structure pjmedia_session_info where
  stream_cnt : Nat
  stream_info : List pjmedia_stream_info
  deriving DecidableEq, Repr

/-- Lines 332-336: the zeroed session with `stream_cnt` and `user_data` set. -/
def new_session (E : Env) (stream_cnt user_data : Nat) : pjmedia_session :=
  { stream_cnt := stream_cnt,
    stream_info := List.replicate E.PJMEDIA_MAX_SDP_MEDIA zero_stream_info,
    stream := List.replicate E.PJMEDIA_MAX_SDP_MEDIA none,
    user_data := user_data }

/-- The effect on `session->stream_info[i]` of a call that was handed
`&session->stream_info[i]`: nothing when it wrote nothing, `none` when it
wrote and the slot lies outside the array. -/
def store_info (session : pjmedia_session) (i : Nat) :
    Option pjmedia_stream_info → Option pjmedia_session
  | none => some session
  | some si =>
    if i < session.stream_info.length then
      some { session with stream_info := session.stream_info.set i si }
    else none

/-- Lines 345-357: the first loop of `pjmedia_session_create`, at index `i`
with `n` iterations to go. -/
def create_negotiate (E : Env) (skinfo : List pjmedia_sock_info)
    (local_sdp rem_sdp : pjmedia_sdp_session) :
    Nat → Nat → pjmedia_session → Outcome (pj_status_t × pjmedia_session)
  | 0, _, session => .returns (PJ_SUCCESS, session)
  | n + 1, i, session =>
    match store_info session i (pjmedia_stream_info_from_sdp E local_sdp rem_sdp i).2 with
    | none => .undefined
    | some session =>
      if (pjmedia_stream_info_from_sdp E local_sdp rem_sdp i).1 ≠ PJ_SUCCESS then
        .returns ((pjmedia_stream_info_from_sdp E local_sdp rem_sdp i).1, session)
      else
        match session.stream_info[i]?, skinfo[i]? with
        | some si, some sk =>
          create_negotiate E skinfo local_sdp rem_sdp n (i + 1)
            { session with stream_info := session.stream_info.set i { si with sock_info := sk } }
        | _, _ => .undefined

/-- Lines 373-375: the loop `for ( --i; i>=0; ++i)` once `--i` is done, at
index `i`. -/
def create_rollback (session : pjmedia_session) (i : Int) (w : World) :
    Outcome Unit × World :=
  if 0 ≤ i then
    if h : i.toNat < session.stream.length then
      create_rollback session (i + 1)
        (w ++ [StreamCall.destroy i.toNat (session.stream.get ⟨i.toNat, h⟩)])
    else (.undefined, w)
  else (.returns (), w)
termination_by session.stream.length - i.toNat
decreasing_by omega

/-- Lines 362-380: the second loop of `pjmedia_session_create`, at index `i`
with `n` iterations to go. -/
def create_streams (E : Env) :
    Nat → Nat → pjmedia_session → World → Outcome (pj_status_t × pjmedia_session) × World
  | 0, _, session, w => (.returns (PJ_SUCCESS, session), w)
  | n + 1, i, session, w =>
    match session.stream_info[i]? with
    | none => (.undefined, w)
    | some si =>
      if i < session.stream.length then
        match E.pjmedia_stream_create w si with
        | .ok s =>
          let session := { session with stream := session.stream.set i (some s) }
          let w := w ++ [StreamCall.create i si]
          match E.pjmedia_stream_start w (some s) with
          | PJ_SUCCESS => create_streams E n (i + 1) session (w ++ [StreamCall.start i (some s)])
          | error status =>
            match create_rollback session ((i : Int) - 1) (w ++ [StreamCall.start i (some s)]) with
            | (.returns _, w) => (.returns (error status, session), w)
            | (.undefined, w) => (.undefined, w)
        | .error status =>
          match create_rollback session ((i : Int) - 1) (w ++ [StreamCall.create i si]) with
          | (.returns _, w) => (.returns (error status, session), w)
          | (.undefined, w) => (.undefined, w)
      else (.undefined, w)

/-- The function `pjmedia_session_create` (lines 309-387), started when the stream object
has received the calls `w`. The pointer arguments other than the session
descriptions are taken to be non-null and the pool to be available. The
result is the status with the session stored to `*p_session` (`none` when
nothing is stored), and the calls made to the stream object. -/
def pjmedia_session_create (E : Env) (stream_cnt : Nat) (skinfo : List pjmedia_sock_info)
    (local_sdp rem_sdp : pjmedia_sdp_session) (user_data : Nat) (w : World) :
    Outcome (pj_status_t × Option pjmedia_session) × World :=
  if stream_cnt = 0 then (.returns (error PJ_EINVAL, none), w)
  else
    let session := new_session E stream_cnt user_data
    let stream_cnt := if stream_cnt < local_sdp.media.length then local_sdp.media.length
                      else stream_cnt
    match create_negotiate E skinfo local_sdp rem_sdp (int_of_unsigned stream_cnt).toNat 0
        session with
    | .undefined => (.undefined, w)
    | .returns (error status, _) => (.returns (error status, none), w)
    | .returns (PJ_SUCCESS, session) =>
      match create_streams E (int_of_unsigned stream_cnt).toNat 0 session w with
      | (.undefined, w) => (.undefined, w)
      | (.returns (error status, _), w) => (.returns (error status, none), w)
      | (.returns (PJ_SUCCESS, session), w) => (.returns (PJ_SUCCESS, some session), w)

/-- The function `pjmedia_session_get_info` (lines 393-403). `info` is the caller's
structure, `none` for a null pointer; the result holds what it contains
after the call. -/
def pjmedia_session_get_info (session : Option pjmedia_session)
    (info : Option pjmedia_session_info) : Outcome (pj_status_t × Option pjmedia_session_info) :=
  match session, info with
  | some session, some info =>
    if session.stream_cnt ≤ session.stream_info.length ∧
        session.stream_cnt ≤ info.stream_info.length then
      .returns (PJ_SUCCESS, some
        { stream_cnt := session.stream_cnt,
          stream_info := session.stream_info.take session.stream_cnt ++
            info.stream_info.drop session.stream_cnt })
    else .undefined
  | _, _ => .returns (error PJ_EINVAL, info)

/-- The loop of `pjmedia_session_destroy` (lines 415-419), at index `i` with
`n` iterations to go. -/
def destroy_loop (session : pjmedia_session) : Nat → Nat → World → Outcome Unit × World
  | 0, _, w => (.returns (), w)
  | n + 1, i, w =>
    match session.stream[i]? with
    | none => (.undefined, w)
    | some s => destroy_loop session n (i + 1) (w ++ [StreamCall.destroy i s])

/-- The function `pjmedia_session_destroy` (lines 409-424). -/
def pjmedia_session_destroy (session : Option pjmedia_session) (w : World) :
    Outcome pj_status_t × World :=
  match session with
  | none => (.returns (error PJ_EINVAL), w)
  | some session =>
    match destroy_loop session session.stream_cnt 0 w with
    | (.undefined, w) => (.undefined, w)
    | (.returns _, w) => (.returns PJ_SUCCESS, w)

/-- The function `pjmedia_session_pause_stream` (lines 468-475). -/
def pjmedia_session_pause_stream (E : Env) (session : Option pjmedia_session) (index : Nat)
    (dir : pjmedia_dir) (w : World) : Outcome pj_status_t × World :=
  match session with
  | none => (.returns (error PJ_EINVAL), w)
  | some session =>
    if index < session.stream_cnt then
      match session.stream[index]? with
      | none => (.undefined, w)
      | some s => (.returns (E.pjmedia_stream_pause w s dir), w ++ [StreamCall.pause index s dir])
    else (.returns (error PJ_EINVAL), w)

/-- The function `pjmedia_session_resume_stream` (lines 482-489). -/
def pjmedia_session_resume_stream (E : Env) (session : Option pjmedia_session) (index : Nat)
    (dir : pjmedia_dir) (w : World) : Outcome pj_status_t × World :=
  match session with
  | none => (.returns (error PJ_EINVAL), w)
  | some session =>
    if index < session.stream_cnt then
      match session.stream[index]? with
      | none => (.undefined, w)
      | some s => (.returns (E.pjmedia_stream_resume w s dir), w ++ [StreamCall.resume index s dir])
    else (.returns (error PJ_EINVAL), w)

/-- The function `pjmedia_session_get_port` (lines 516-521): no argument is checked.
`p_port` is passed on as it is; the result holds what the stream stored. -/
def pjmedia_session_get_port (E : Env) (session : Option pjmedia_session) (index : Nat)
    (w : World) : Outcome (pj_status_t × Option Nat) × World :=
  match session with
  | none => (.undefined, w)
  | some session =>
    match session.stream[index]? with
    | none => (.undefined, w)
    | some s => (.returns (E.pjmedia_stream_get_port w s), w ++ [StreamCall.get_port index s])

/-- The function `pjmedia_session_get_stream_stat` (lines 526-534). `stat` tells whether
the pointer is non-null. -/
def pjmedia_session_get_stream_stat (E : Env) (session : Option pjmedia_session)
    (index : Nat) (stat : Bool) (w : World) : Outcome (pj_status_t × Option Nat) × World :=
  match session with
  | none => (.returns (error PJ_EINVAL, none), w)
  | some session =>
    if stat ∧ index < session.stream_cnt then
      match session.stream[index]? with
      | none => (.undefined, w)
      | some s => (.returns (E.pjmedia_stream_get_stat w s), w ++ [StreamCall.get_stat index s])
    else (.returns (error PJ_EINVAL, none), w)

/-- The function `pjmedia_session_dial_dtmf` (lines 540-546). `ascii_digits = none` is a
null pointer. -/
def pjmedia_session_dial_dtmf (E : Env) (session : Option pjmedia_session) (index : Nat)
    (ascii_digits : Option pj_str_t) (w : World) : Outcome pj_status_t × World :=
  match session, ascii_digits with
  | some session, some digits =>
    match session.stream[index]? with
    | none => (.undefined, w)
    | some s =>
      (.returns (E.pjmedia_stream_dial_dtmf w s digits), w ++ [StreamCall.dial_dtmf index s digits])
  | _, _ => (.returns (error PJ_EINVAL), w)

/-- The function `pjmedia_session_check_dtmf` (lines 551-556). -/
def pjmedia_session_check_dtmf (E : Env) (session : Option pjmedia_session) (index : Nat)
    (w : World) : Outcome pj_status_t × World :=
  match session with
  | none => (.returns (error PJ_EINVAL), w)
  | some session =>
    match session.stream[index]? with
    | none => (.undefined, w)
    | some s => (.returns (E.pjmedia_stream_check_dtmf w s), w ++ [StreamCall.check_dtmf index s])

/-- The function `pjmedia_session_get_dtmf` (lines 562-570). `ascii_digits` and `size`
tell whether the pointers are non-null. -/
def pjmedia_session_get_dtmf (E : Env) (session : Option pjmedia_session) (index : Nat)
    (ascii_digits size : Bool) (w : World) : Outcome (pj_status_t × Option pj_str_t) × World :=
  match session with
  | none => (.returns (error PJ_EINVAL, none), w)
  | some session =>
    if ascii_digits ∧ size then
      match session.stream[index]? with
      | none => (.undefined, w)
      | some s => (.returns (E.pjmedia_stream_get_dtmf w s), w ++ [StreamCall.get_dtmf index s])
    else (.returns (error PJ_EINVAL, none), w)

/-- The loop of `pjmedia_session_resume` (lines 438-440), at index `i` with
`n` iterations to go; the status of each call is dropped. -/
def resume_loop (E : Env) (session : pjmedia_session) (dir : pjmedia_dir) :
    Nat → Nat → World → Outcome Unit × World
  | 0, _, w => (.returns (), w)
  | n + 1, i, w =>
    match pjmedia_session_resume_stream E (some session) i dir w with
    | (.undefined, w) => (.undefined, w)
    | (.returns _, w) => resume_loop E session dir n (i + 1) w

/-- The function `pjmedia_session_resume` (lines 431-443). -/
def pjmedia_session_resume (E : Env) (session : Option pjmedia_session) (dir : pjmedia_dir)
    (w : World) : Outcome pj_status_t × World :=
  match session with
  | none => (.returns (error PJ_EINVAL), w)
  | some session =>
    match resume_loop E session dir session.stream_cnt 0 w with
    | (.undefined, w) => (.undefined, w)
    | (.returns _, w) => (.returns PJ_SUCCESS, w)

/-- The loop of `pjmedia_session_pause` (lines 457-459), at index `i` with
`n` iterations to go; the status of each call is dropped. -/
def pause_loop (E : Env) (session : pjmedia_session) (dir : pjmedia_dir) :
    Nat → Nat → World → Outcome Unit × World
  | 0, _, w => (.returns (), w)
  | n + 1, i, w =>
    match pjmedia_session_pause_stream E (some session) i dir w with
    | (.undefined, w) => (.undefined, w)
    | (.returns _, w) => pause_loop E session dir n (i + 1) w

/-- The function `pjmedia_session_pause` (lines 450-462). -/
def pjmedia_session_pause (E : Env) (session : Option pjmedia_session) (dir : pjmedia_dir)
    (w : World) : Outcome pj_status_t × World :=
  match session with
  | none => (.returns (error PJ_EINVAL), w)
  | some session =>
    match pause_loop E session dir session.stream_cnt 0 w with
    | (.undefined, w) => (.undefined, w)
    | (.returns _, w) => (.returns PJ_SUCCESS, w)

/-- The loop of `pjmedia_session_enum_streams` (lines 505-507), at index `i`
with `n` iterations to go: `info[i]` receives the bytes that start at
`&session->stream[i]`. -/
def enum_loop (E : Env) (session : pjmedia_session) :
    Nat → Nat → List pjmedia_stream_info → Outcome (List pjmedia_stream_info)
  | 0, _, info => .returns info
  | n + 1, i, info =>
    match E.stream_slots_as_info (session.stream.drop i) session.user_data with
    | none => .undefined
    | some raw =>
      if i < info.length then enum_loop E session n (i + 1) (info.set i raw)
      else .undefined

/-- The function `pjmedia_session_enum_streams` (lines 494-510). `count` is
`*count` and `info` the caller's array, `none` for a null pointer; the result
holds the status, `*count` and the array after the call. -/
def pjmedia_session_enum_streams (E : Env) (session : Option pjmedia_session)
    (count : Option Nat) (info : Option (List pjmedia_stream_info)) :
    Outcome (pj_status_t × Option Nat × Option (List pjmedia_stream_info)) :=
  match session, count, info with
  | some session, some count, some info =>
    if count = 0 then .returns (error PJ_EINVAL, some count, some info)
    else
      let count := if count > session.stream_cnt then session.stream_cnt else count
      match enum_loop E session count 0 info with
      | .undefined => .undefined
      | .returns info => .returns (PJ_SUCCESS, some count, some info)
  | _, _, _ => .returns (error PJ_EINVAL, count, info)

/-! ## A reference environment

Concrete stand-ins for the fields of `Env`, used to run the model on
written-out descriptions. -/

/-- Modelled from the spec: `pj_strtoul` (pjlib is not part of the sources);
the number written by the leading decimal digits of the string. -/
def ref_strtoul_from : List Char → Nat → Nat
  | [], v => v
  | c :: cs, v => if pj_isdigit c then ref_strtoul_from cs (v * 10 + (c.toNat - 48)) else v

/-- Splits a string at every occurrence of `sep`. -/
def split_at_char (sep : Char) : List Char → List (List Char)
  | [] => [[]]
  | c :: cs =>
    if c = sep then [] :: split_at_char sep cs
    else
      match split_at_char sep cs with
      | [] => [[c]]
      | p :: ps => (c :: p) :: ps

/-- A non-empty string of decimal digits. -/
def all_digits (s : pj_str_t) : Bool := !s.isEmpty && s.all pj_isdigit

/-- Modelled from the spec: `pj_inet_aton` (pjlib is not part of the sources);
a dotted quad of four numbers below 256 gives its 32-bit address, anything
else is refused. -/
def ref_inet_aton (s : pj_str_t) : Option Nat :=
  match split_at_char '.' s with
  | [a, b, c, d] =>
    if all_digits a && all_digits b && all_digits c && all_digits d &&
        decide (ref_strtoul_from a 0 < 256) && decide (ref_strtoul_from b 0 < 256) &&
        decide (ref_strtoul_from c 0 < 256) && decide (ref_strtoul_from d 0 < 256) then
      some (((ref_strtoul_from a 0 * 256 + ref_strtoul_from b 0) * 256 +
        ref_strtoul_from c 0) * 256 + ref_strtoul_from d 0)
    else none
  | _ => none

/-- The status the reference rtpmap parser fails with (`PJMEDIA_SDP_EINRTPMAP`
in pjmedia), a code distinct from those `session.c` names. -/
def ref_EINRTPMAP : pj_errno := pj_errno.other 1

/-- The status the reference codec registry fails with for an unknown
payload type. -/
def ref_ENOTFOUND : pj_errno := pj_errno.other 2

/-- The status the reference stream factory fails with. -/
def ref_ESTREAM : pj_errno := pj_errno.other 3

/-- Modelled from the spec: `pjmedia_sdp_attr_get_rtpmap` (sdp.c is not part
of the sources); an rtpmap value binds a payload number to an encoding name
and a clock rate, written `<pt> <name>/<rate>`. -/
def ref_get_rtpmap (attr : pjmedia_sdp_attr) : Except pj_errno pjmedia_sdp_rtpmap :=
  match split_at_char ' ' attr.value with
  | [pt, rest] =>
    match split_at_char '/' rest with
    | enc :: rate :: _ =>
      if all_digits pt && !enc.isEmpty && all_digits rate then
        .ok ⟨pt, enc, ref_strtoul_from rate 0⟩
      else .error ref_EINRTPMAP
    | _ => .error ref_EINRTPMAP
  | _ => .error ref_EINRTPMAP

/-- Modelled from the spec: `pjmedia_sdp_media_find_attr` (sdp.c is not part
of the sources); the first attribute of the media line with the given name
and, when a format is given, whose value starts with that format followed by
a blank. -/
def ref_find_attr (m : pjmedia_sdp_media) (name : pj_str_t) (fmt : Option pj_str_t) :
    Option pjmedia_sdp_attr :=
  m.attr.find? fun a =>
    decide (a.name = name) &&
      match fmt with
      | none => true
      | some f => (f ++ [' ']).isPrefixOf a.value

/-- Modelled from the spec: the codec registry, `lookup(0) = {PCMU, 8000}`
and `lookup(8) = {PCMA, 8000}`; every other number is unknown. -/
def ref_codec_info (pt : Nat) : Except pj_errno pjmedia_codec_info :=
  if pt = 0 then .ok ⟨ PJMEDIA_TYPE_AUDIO, 0, "PCMU".toList, 8000⟩
  else if pt = 8 then .ok ⟨ PJMEDIA_TYPE_AUDIO, 8, "PCMA".toList, 8000⟩
  else .error ref_ENOTFOUND

/-- The number of `create` calls in a call history. -/
def count_creates (w : World) : Nat :=
  (w.filter fun c => match c with | .create _ _ => true | _ => false).length

/-- The reference environment. Its stream factory hands out the streams
numbered 1, 2, ... and, when `fail_at = some k`, fails the create call that
follows `k` earlier ones; every other stream call succeeds. -/
def refEnv (fail_at : Option Nat) : Env where
  PJMEDIA_MAX_SDP_MEDIA := 4
  pj_strtoul := fun s => ref_strtoul_from s 0
  pj_htons := fun p => p
  pj_inet_addr := fun s => (ref_inet_aton s).getD 0xFFFFFFFF
  pj_inet_aton := ref_inet_aton
  pjmedia_sdp_media_find_attr := ref_find_attr
  pjmedia_sdp_attr_to_rtpmap := ref_get_rtpmap
  pjmedia_sdp_attr_get_rtpmap := ref_get_rtpmap
  pjmedia_codec_mgr_get_codec_info := ref_codec_info
  pjmedia_stream_create := fun w _ =>
    if fail_at = some (count_creates w) then .error ref_ESTREAM
    else .ok ⟨count_creates w + 1⟩
  pjmedia_stream_start := fun _ _ => PJ_SUCCESS
  pjmedia_stream_pause := fun _ _ _ => PJ_SUCCESS
  pjmedia_stream_resume := fun _ _ _ => PJ_SUCCESS
  pjmedia_stream_get_port := fun _ s => (PJ_SUCCESS, s.map fun h => h.id)
  pjmedia_stream_get_stat := fun _ s => (PJ_SUCCESS, s.map fun h => h.id)
  pjmedia_stream_dial_dtmf := fun _ _ _ => PJ_SUCCESS
  pjmedia_stream_check_dtmf := fun _ _ => PJ_SUCCESS
  pjmedia_stream_get_dtmf := fun _ _ => (PJ_SUCCESS, some [])
  stream_slots_as_info := fun slots _ =>
    match slots with
    | [] => none
    | s :: _ => some { zero_stream_info with ssrc := (s.map fun h => h.id).getD 0 }

/-- The connection line `c=IN IP4 192.168.0.10`. -/
def conn_host : pjmedia_sdp_conn := ⟨"192.168.0.10".toList⟩

/-- An audio media line on port 49170 with the given formats and attributes
and no connection line of its own. -/
def audio_line (fmt : List String) (attr : List (String × String)) : pjmedia_sdp_media :=
  { media := "audio".toList, port := 49170, fmt := fmt.map String.toList, conn := none,
    attr := attr.map fun a => ⟨a.1.toList, a.2.toList⟩ }

/-- A description with a session-level connection and the given media lines. -/
def sdp_of (media : List pjmedia_sdp_media) : pjmedia_sdp_session :=
  { conn := some conn_host, media := media }

/-- The media line `m=audio 49170 RTP/AVP 97` with `a=rtpmap:97 opus/48000`. -/
def ex_opus_97 : pjmedia_sdp_media := audio_line ["97"] [("rtpmap", "97 opus/48000")]

/-- The media line `m=audio 49170 RTP/AVP 98` with `a=rtpmap:98 opus/48000`. -/
def ex_opus_98 : pjmedia_sdp_media := audio_line ["98"] [("rtpmap", "98 opus/48000")]

/-- The media line `m=audio 49170 RTP/AVP 65535` with `a=rtpmap:65535 opus/48000`. -/
def ex_opus_65535 : pjmedia_sdp_media := audio_line ["65535"] [("rtpmap", "65535 opus/48000")]

/-- The media line `m=audio 49170 RTP/AVP x 98` with `a=rtpmap:98 opus/48000`. -/
def ex_opus_x_98 : pjmedia_sdp_media := audio_line ["x", "98"] [("rtpmap", "98 opus/48000")]

/-- The media line `m=audio 49170 RTP/AVP 98` with `a=rtpmap:98 speex/16000`. -/
def ex_speex_98 : pjmedia_sdp_media := audio_line ["98"] [("rtpmap", "98 speex/16000")]

/-- The media line `m=audio 49170 RTP/AVP 97` with `a=rtpmap:97 opus`, an
rtpmap without a clock rate. -/
def ex_bad_rtpmap_97 : pjmedia_sdp_media := audio_line ["97"] [("rtpmap", "97 opus")]

/-- The media line `m=audio 49170 RTP/AVP 99` without attributes. -/
def ex_plain_99 : pjmedia_sdp_media := audio_line ["99"] []

/-- The media line `m=audio 49170 RTP/AVP 0` without attributes. -/
def ex_plain_0 : pjmedia_sdp_media := audio_line ["0"] []

/-- The media line `m=audio 49170 RTP/AVP x` without attributes. -/
def ex_plain_x : pjmedia_sdp_media := audio_line ["x"] []

/-- The media line `m=audio 49170 RTP/AVP 0abc` without attributes. -/
def ex_plain_0abc : pjmedia_sdp_media := audio_line ["0abc"] []

/-- The media line `m=audio 49170 RTP/AVP 8` with `a=rtpmap:8 PCMA/8000`. -/
def ex_pcma_8 : pjmedia_sdp_media := audio_line ["8"] [("rtpmap", "8 PCMA/8000")]

/-- The media line `m=audio 0 RTP/AVP 0` with `a=sendonly`: port zero. -/
def ex_port0_sendonly : pjmedia_sdp_media :=
  { audio_line ["0"] [("sendonly", "")] with port := 0 }

/-- The media line `m=audio 49170 RTP/AVP 0 101` with
`a=rtpmap:101 telephone-event/8000`. -/
def ex_with_dtmf : pjmedia_sdp_media :=
  audio_line ["0", "101"] [("rtpmap", "101 telephone-event/8000")]

/-- The media lines and connections of a one-line description pair built
with `sdp_of`. -/
def ex_resolved (local_m rem_m : pjmedia_sdp_media) : Resolved :=
  ⟨local_m, rem_m, conn_host, conn_host⟩

/-- A description with the two media lines `m=audio 49170 RTP/AVP 0` and
`m=audio 49170 RTP/AVP 8` (with `a=rtpmap:8 PCMA/8000`). -/
def ex_two_lines : pjmedia_sdp_session := sdp_of [ex_plain_0, ex_pcma_8]

/-- The caller's socket infos, one per media line of `ex_two_lines`. -/
def ex_skinfo : List pjmedia_sock_info := [⟨10⟩, ⟨11⟩]

/-- The caller's `pjmedia_session_info` before `pjmedia_session_get_info`,
with the reference environment's capacity of 4 entries. -/
def ex_info : pjmedia_session_info := ⟨0, List.replicate 4 zero_stream_info⟩

/-- A session of the reference environment with two streams: `stream_cnt = 2`,
`stream[0]` and `stream[1]` hold the streams 1 and 2, `stream[2]` and
`stream[3]` are null. -/
def ex_session : pjmedia_session :=
  { stream_cnt := 2, stream_info := List.replicate 4 zero_stream_info,
    stream := [some ⟨1⟩, some ⟨2⟩, none, none], user_data := 0 }

/-- The calls `destroy i`, `destroy (i + 1)`, ... on the given slots. -/
def destroy_calls : Nat → List (Option pjmedia_stream) → World
  | _, [] => []
  | i, s :: rest => StreamCall.destroy i s :: destroy_calls (i + 1) rest

/-- The slots of `session->stream[]` that `pjmedia_stream_destroy` was called
on, in call order. -/
def destroyed_indices (w : World) : List Nat :=
  w.filterMap fun c => match c with | .destroy i _ => some i | _ => none

/-- The slots of `session->stream[]` that `pjmedia_stream_create` was called
for, in call order. -/
def created_indices (w : World) : List Nat :=
  w.filterMap fun c => match c with | .create i _ => some i | _ => none

/-- The slots of `session->stream[]` that `pjmedia_stream_start` was called
on, in call order. -/
def started_indices (w : World) : List Nat :=
  w.filterMap fun c => match c with | .start i _ => some i | _ => none

/-- The calls `pause i stream[i] dir` for the slots `i`, `i + 1`, ... given. -/
def pause_calls (dir : pjmedia_dir) : Nat → List (Option pjmedia_stream) → World
  | _, [] => []
  | i, s :: rest => StreamCall.pause i s dir :: pause_calls dir (i + 1) rest

/-- The calls `resume i stream[i] dir` for the slots `i`, `i + 1`, ... given. -/
def resume_calls (dir : pjmedia_dir) : Nat → List (Option pjmedia_stream) → World
  | _, [] => []
  | i, s :: rest => StreamCall.resume i s dir :: resume_calls dir (i + 1) rest

/-- The reference environment with a stream whose pause and resume always
fail. -/
def refEnv_pause_fails : Env :=
  { refEnv none with
    pjmedia_stream_pause := fun _ _ _ => error ref_ESTREAM
    pjmedia_stream_resume := fun _ _ _ => error ref_ESTREAM }

/-- The media line `m=text 49170 RTP/AVP 0`. -/
def ex_text_line : pjmedia_sdp_media := { ex_plain_0 with media := "text".toList }

/-- The media line `m=AUDIO 49170 RTP/AVP 0`. -/
def ex_upper_audio : pjmedia_sdp_media := { ex_plain_0 with media := "AUDIO".toList }

/-- A description with the one media line given and no connection at all. -/
def sdp_no_conn (m : pjmedia_sdp_media) : pjmedia_sdp_session :=
  { conn := none, media := [{ m with conn := none }] }

/-- A description with the two media lines `m=audio 49170 RTP/AVP 0` and
`m=text 49170 RTP/AVP 0`; the second has an unsupported media type. -/
def ex_audio_text : pjmedia_sdp_session := sdp_of [ex_plain_0, ex_text_line]

/-- A description with the single media line `m=text 49170 RTP/AVP 0`. -/
def ex_text_only : pjmedia_sdp_session := sdp_of [ex_text_line]

/-- A description with the single media line `m=audio 49170 RTP/AVP 0`. -/
def ex_one_line : pjmedia_sdp_session := sdp_of [ex_plain_0]

/-- The media line `m=audio 49170 RTP/AVP 0` with
`a=rtpmap:4294967295 telephone-event/8000`. -/
def ex_dtmf_4294967295 : pjmedia_sdp_media :=
  audio_line ["0"] [("rtpmap", "4294967295 telephone-event/8000")]

/-- Modelled from the spec: `pj_strtoul` (pjlib is not part of the sources)
in a second reading, which takes in every character of the string as a
decimal digit, `value * 10 + (c - '0')`, whether it is one or not (written for
characters from `0` upward). -/
def ref_strtoul_all : List Char → Nat → Nat
  | [], v => v
  | c :: cs, v => ref_strtoul_all cs (v * 10 + (c.toNat - 48))

/-- The reference environment with the second reading of `pj_strtoul`. -/
def refEnv_strtoul_all : Env :=
  { refEnv none with pj_strtoul := fun s => ref_strtoul_all s 0 }

/-! ## Vocabulary of the specification -/

/-- Steps 1-4 of the negotiation pass for media line `stream_idx` and settle
on `r`: the index is in bounds and both connections exist, the local media
type is `audio` or `video`, and the remote address parses. (Step 3, the
direction, cannot fail.) -/
def passes_steps_1_4 (E : Env) (loc rem : pjmedia_sdp_session) (stream_idx : Nat)
    (r : Resolved) : Prop :=
  resolve loc rem stream_idx = .ok r ∧
  (pj_stricmp r.local_m.media ID_AUDIO = 0 ∨ pj_stricmp r.local_m.media ID_VIDEO = 0) ∧
  (E.pj_inet_aton r.rem_conn.addr).isSome = true

/-- The stream info when step 4 is done: zeroed, then the media type, the
direction and the remote address are set. -/
def stream_info_after_step4 (E : Env) (r : Resolved) (type : pjmedia_type) (a : Nat) :
    pjmedia_stream_info :=
  { zero_stream_info with
    type := type, dir := media_direction E r,
    rem_addr := { sin_family := PJ_AF_INET, sin_port := E.pj_htons r.rem_m.port, sin_addr := a } }

/-- The remote format token `f` is dynamic, has its own rtpmap that parses,
and that rtpmap has the encoding name (ignoring case) and the clock rate of
the local `rtpmap`. -/
def RemoteMatch (E : Env) (rem_m : pjmedia_sdp_media) (rtpmap : pjmedia_sdp_rtpmap)
    (f : pj_str_t) : Prop :=
  96 ≤ E.pj_strtoul f ∧
  ∃ r_attr r_rtpmap,
    E.pjmedia_sdp_media_find_attr rem_m ID_RTPMAP (some f) = some r_attr ∧
    E.pjmedia_sdp_attr_get_rtpmap r_attr = .ok r_rtpmap ∧
    rtpmap.enc_name.map pj_tolower = r_rtpmap.enc_name.map pj_tolower ∧
    rtpmap.clock_rate = r_rtpmap.clock_rate

/-- The attribute is an rtpmap attribute that parses to `rm`, and its
encoding name is `telephone-event`. -/
def EventRtpmap (E : Env) (attr : pjmedia_sdp_attr) (rm : pjmedia_sdp_rtpmap) : Prop :=
  attr.name = "rtpmap".toList ∧
  E.pjmedia_sdp_attr_get_rtpmap attr = .ok rm ∧
  rm.enc_name = "telephone-event".toList

/-! ## Lemmas on the string helpers -/

theorem pj_strcmp_eq_zero_iff (s t : pj_str_t) : pj_strcmp s t = 0 ↔ s = t := by
  induction s generalizing t with
  | nil => cases t <;> simp [pj_strcmp]
  | cons a s ih =>
    cases t with
    | nil => simp [pj_strcmp]
    | cons b t =>
      by_cases hab : a = b
      · simp [pj_strcmp, hab, ih]
      · by_cases hlt : a.toNat < b.toNat <;> simp [pj_strcmp, hab, hlt]

theorem pj_stricmp_eq_zero_iff (s t : pj_str_t) :
    pj_stricmp s t = 0 ↔ s.map pj_tolower = t.map pj_tolower := by
  unfold pj_stricmp
  exact pj_strcmp_eq_zero_iff _ _

theorem first_char_of_all_digits {s : pj_str_t} (h : all_digits s = true) :
    pj_isdigit (first_char s) = true := by
  cases s with
  | nil => simp [all_digits] at h
  | cons c cs =>
    simp only [all_digits, List.all_cons, Bool.and_eq_true] at h
    simpa [first_char] using h.2.1

/-! ## Lemmas on the scans -/

theorem remote_fmt_matches_iff (E : Env) (rem_m : pjmedia_sdp_media)
    (rtpmap : pjmedia_sdp_rtpmap) (f : pj_str_t) :
    remote_fmt_matches E rem_m rtpmap f = true ↔ RemoteMatch E rem_m rtpmap f := by
  unfold remote_fmt_matches RemoteMatch
  by_cases hlt : E.pj_strtoul f < 96
  · simp [hlt]
  · rw [if_neg hlt]
    cases hfind : E.pjmedia_sdp_media_find_attr rem_m ID_RTPMAP (some f) with
    | none => simp
    | some r_attr =>
      cases hget : E.pjmedia_sdp_attr_get_rtpmap r_attr with
      | error e => simp [hget]
      | ok r_rtpmap =>
        simp [hget, pj_stricmp_eq_zero_iff]
        omega

theorem scan_remote_fmt_first (E : Env) (rem_m : pjmedia_sdp_media)
    (rtpmap : pjmedia_sdp_rtpmap) (pre : List pj_str_t) (f : pj_str_t) (post : List pj_str_t)
    (tx_pt : Nat) (hpre : ∀ g ∈ pre, ¬ RemoteMatch E rem_m rtpmap g)
    (hf : RemoteMatch E rem_m rtpmap f) :
    scan_remote_fmt E rem_m rtpmap (pre ++ f :: post) tx_pt = E.pj_strtoul f := by
  induction pre with
  | nil =>
    simp [scan_remote_fmt, (remote_fmt_matches_iff E rem_m rtpmap f).2 hf]
  | cons g pre ih =>
    have hg : remote_fmt_matches E rem_m rtpmap g = false := by
      cases hb : remote_fmt_matches E rem_m rtpmap g with
      | false => rfl
      | true =>
        exact absurd ((remote_fmt_matches_iff E rem_m rtpmap g).1 hb)
          (hpre g (List.mem_cons_self g pre))
    simp only [List.cons_append, scan_remote_fmt, hg]
    exact ih fun g' hg' => hpre g' (List.mem_cons_of_mem g hg')

theorem scan_remote_fmt_none (E : Env) (rem_m : pjmedia_sdp_media)
    (rtpmap : pjmedia_sdp_rtpmap) (fmts : List pj_str_t) (tx_pt : Nat)
    (hno : ∀ g ∈ fmts, ¬ RemoteMatch E rem_m rtpmap g) :
    scan_remote_fmt E rem_m rtpmap fmts tx_pt = tx_pt := by
  induction fmts with
  | nil => rfl
  | cons g fmts ih =>
    have hg : remote_fmt_matches E rem_m rtpmap g = false := by
      cases hb : remote_fmt_matches E rem_m rtpmap g with
      | false => rfl
      | true =>
        exact absurd ((remote_fmt_matches_iff E rem_m rtpmap g).1 hb)
          (hno g (List.mem_cons_self g fmts))
    simp only [scan_remote_fmt, hg]
    exact ih fun g' hg' => hno g' (List.mem_cons_of_mem g hg')

/-! ## Lemmas on `pjmedia_stream_info_from_sdp` -/

/-- Once steps 1-4 pass, the call is the codec step run on a stream info that
carries the direction of step 3. -/
theorem from_sdp_of_steps {E : Env} {loc rem : pjmedia_sdp_session} {stream_idx : Nat}
    {r : Resolved} (h : passes_steps_1_4 E loc rem stream_idx r) :
    ∃ si0 : pjmedia_stream_info, si0.dir = media_direction E r ∧
      pjmedia_stream_info_from_sdp E loc rem stream_idx =
        ((from_sdp_codec E r si0).1, some (from_sdp_codec E r si0).2) := by
  obtain ⟨hres, hmedia, haddr⟩ := h
  obtain ⟨a, ha⟩ := Option.isSome_iff_exists.1 haddr
  by_cases haudio : pj_stricmp r.local_m.media ID_AUDIO = 0
  · refine ⟨stream_info_after_step4 E r PJMEDIA_TYPE_AUDIO a, rfl, ?_⟩
    simp only [pjmedia_stream_info_from_sdp, hres, from_sdp_fill, haudio, if_true,
      from_sdp_dir_addr, ha]
    rfl
  · have hvideo : pj_stricmp r.local_m.media ID_VIDEO = 0 := hmedia.resolve_left haudio
    refine ⟨stream_info_after_step4 E r PJMEDIA_TYPE_VIDEO a, rfl, ?_⟩
    simp only [pjmedia_stream_info_from_sdp, hres, from_sdp_fill, haudio, hvideo, if_true,
      if_false, from_sdp_dir_addr, ha]
    rfl

theorem from_sdp_dtmf_eq (E : Env) (r : Resolved) (si : pjmedia_stream_info) :
    from_sdp_dtmf E r si =
      (PJ_SUCCESS, { si with tx_event_pt := scan_event_pt E r.local_m.attr (-1),
                             rx_event_pt := scan_event_pt E r.rem_m.attr (-1) }) := rfl

/-- The codec step on a static payload type whose local rtpmap parses. -/
theorem from_sdp_codec_static_rtpmap {E : Env} {r : Resolved} {attr : pjmedia_sdp_attr}
    {rtpmap : pjmedia_sdp_rtpmap} (si0 : pjmedia_stream_info)
    (hl : pj_isdigit (first_char (fmt0 r.local_m)) = true)
    (hr : pj_isdigit (first_char (fmt0 r.rem_m)) = true)
    (hlt : E.pj_strtoul (fmt0 r.local_m) < 96)
    (hattr : E.pjmedia_sdp_media_find_attr r.local_m ID_RTPMAP (some (fmt0 r.local_m)) =
      some attr)
    (hparse : E.pjmedia_sdp_attr_to_rtpmap attr = .ok rtpmap) :
    from_sdp_codec E r si0 =
      (PJ_SUCCESS,
        { si0 with
          fmt := { type := si0.type, pt := E.pj_strtoul (fmt0 r.local_m),
                   encoding_name := rtpmap.enc_name, sample_rate := rtpmap.clock_rate },
          tx_pt := E.pj_strtoul (fmt0 r.local_m),
          tx_event_pt := scan_event_pt E r.local_m.attr (-1),
          rx_event_pt := scan_event_pt E r.rem_m.attr (-1) }) := by
  simp only [from_sdp_codec, hl, hr, hlt, from_sdp_static, hattr, hparse, from_sdp_dtmf_eq,
    Bool.not_true, Bool.or_self, if_true, Bool.false_eq_true, if_false]

/-- The codec step on a dynamic payload type whose local rtpmap parses. -/
theorem from_sdp_codec_dynamic_rtpmap {E : Env} {r : Resolved} {attr : pjmedia_sdp_attr}
    {rtpmap : pjmedia_sdp_rtpmap} (si0 : pjmedia_stream_info)
    (hl : pj_isdigit (first_char (fmt0 r.local_m)) = true)
    (hr : pj_isdigit (first_char (fmt0 r.rem_m)) = true)
    (hge : 96 ≤ E.pj_strtoul (fmt0 r.local_m))
    (hattr : E.pjmedia_sdp_media_find_attr r.local_m ID_RTPMAP (some (fmt0 r.local_m)) =
      some attr)
    (hparse : E.pjmedia_sdp_attr_to_rtpmap attr = .ok rtpmap) :
    (from_sdp_codec E r si0).1 =
        (if scan_remote_fmt E r.rem_m rtpmap r.rem_m.fmt 0xFFFF = 0xFFFF then
          error PJMEDIA_EMISSINGRTPMAP else PJ_SUCCESS) ∧
      (from_sdp_codec E r si0).2.tx_pt = scan_remote_fmt E r.rem_m rtpmap r.rem_m.fmt 0xFFFF ∧
      (from_sdp_codec E r si0).2.fmt.pt = E.pj_strtoul (fmt0 r.local_m) := by
  have hnlt : ¬ E.pj_strtoul (fmt0 r.local_m) < 96 := Nat.not_lt.2 hge
  simp only [from_sdp_codec, hl, hr, hnlt, from_sdp_dynamic, hattr, hparse, from_sdp_dtmf_eq,
    Bool.not_true, Bool.or_self, if_false, Bool.false_eq_true]
  by_cases hs : scan_remote_fmt E r.rem_m rtpmap r.rem_m.fmt 0xFFFF = 0xFFFF
  · simp only [hs, if_true, and_self]
  · simp only [hs, if_false, and_self]

/-- The codec step when a first format token does not begin with a digit. -/
theorem from_sdp_codec_not_digit {E : Env} {r : Resolved} (si0 : pjmedia_stream_info)
    (h : pj_isdigit (first_char (fmt0 r.local_m)) = false ∨
      pj_isdigit (first_char (fmt0 r.rem_m)) = false) :
    from_sdp_codec E r si0 = (error PJMEDIA_EINVALIDPT, si0) := by
  rcases h with h | h
  · simp [from_sdp_codec, h]
  · simp [from_sdp_codec, h]

/-- The codec step on a dynamic payload type with no local rtpmap attribute. -/
theorem from_sdp_codec_dynamic_absent {E : Env} {r : Resolved} (si0 : pjmedia_stream_info)
    (hl : pj_isdigit (first_char (fmt0 r.local_m)) = true)
    (hr : pj_isdigit (first_char (fmt0 r.rem_m)) = true)
    (hge : 96 ≤ E.pj_strtoul (fmt0 r.local_m))
    (hattr : E.pjmedia_sdp_media_find_attr r.local_m ID_RTPMAP (some (fmt0 r.local_m)) = none) :
    from_sdp_codec E r si0 = (error PJMEDIA_EMISSINGRTPMAP, si0) := by
  have hnlt : ¬ E.pj_strtoul (fmt0 r.local_m) < 96 := Nat.not_lt.2 hge
  simp only [from_sdp_codec, hl, hr, hnlt, from_sdp_dynamic, hattr,
    Bool.not_true, Bool.or_self, if_false, Bool.false_eq_true]

/-- The codec step on a dynamic payload type whose local rtpmap does not parse. -/
theorem from_sdp_codec_dynamic_unparsed {E : Env} {r : Resolved} {attr : pjmedia_sdp_attr}
    {e : pj_errno} (si0 : pjmedia_stream_info)
    (hl : pj_isdigit (first_char (fmt0 r.local_m)) = true)
    (hr : pj_isdigit (first_char (fmt0 r.rem_m)) = true)
    (hge : 96 ≤ E.pj_strtoul (fmt0 r.local_m))
    (hattr : E.pjmedia_sdp_media_find_attr r.local_m ID_RTPMAP (some (fmt0 r.local_m)) =
      some attr)
    (hparse : E.pjmedia_sdp_attr_to_rtpmap attr = .error e) :
    from_sdp_codec E r si0 = (error e, si0) := by
  have hnlt : ¬ E.pj_strtoul (fmt0 r.local_m) < 96 := Nat.not_lt.2 hge
  simp only [from_sdp_codec, hl, hr, hnlt, from_sdp_dynamic, hattr, hparse,
    Bool.not_true, Bool.or_self, if_false, Bool.false_eq_true]

/-- The codec step never touches the direction, and when it succeeds the two
event payload types are the results of the two attribute scans. -/
theorem from_sdp_codec_keeps (E : Env) (r : Resolved) (si0 : pjmedia_stream_info) :
    (from_sdp_codec E r si0).2.dir = si0.dir ∧
      ((from_sdp_codec E r si0).1 = PJ_SUCCESS →
        (from_sdp_codec E r si0).2.tx_event_pt = scan_event_pt E r.local_m.attr (-1) ∧
        (from_sdp_codec E r si0).2.rx_event_pt = scan_event_pt E r.rem_m.attr (-1)) := by
  unfold from_sdp_codec
  split
  · exact ⟨rfl, fun h => by cases h⟩
  · simp only []
    split
    · unfold from_sdp_static
      simp only [from_sdp_dtmf_eq]
      split
      · exact ⟨rfl, fun _ => ⟨rfl, rfl⟩⟩
      · split
        · exact ⟨rfl, fun h => by cases h⟩
        · exact ⟨rfl, fun _ => ⟨rfl, rfl⟩⟩
    · unfold from_sdp_dynamic
      simp only [from_sdp_dtmf_eq]
      split
      · exact ⟨rfl, fun h => by cases h⟩
      · split
        · exact ⟨rfl, fun h => by cases h⟩
        · split
          · exact ⟨rfl, fun h => by cases h⟩
          · exact ⟨rfl, fun _ => ⟨rfl, rfl⟩⟩

/-- A successful call went through steps 1-4, and its output is that of the
codec step. -/
theorem from_sdp_success {E : Env} {loc rem : pjmedia_sdp_session} {stream_idx : Nat}
    {r : Resolved} {si : pjmedia_stream_info} (hres : resolve loc rem stream_idx = .ok r)
    (h : pjmedia_stream_info_from_sdp E loc rem stream_idx = (PJ_SUCCESS, some si)) :
    ∃ si0 : pjmedia_stream_info, si0.dir = media_direction E r ∧
      (from_sdp_codec E r si0).1 = PJ_SUCCESS ∧ (from_sdp_codec E r si0).2 = si := by
  have h14 : passes_steps_1_4 E loc rem stream_idx r := by
    refine ⟨hres, ?_, ?_⟩
    · by_contra hno
      rw [not_or] at hno
      simp [pjmedia_stream_info_from_sdp, hres, from_sdp_fill, hno.1, hno.2] at h
    · cases ha : E.pj_inet_aton r.rem_conn.addr with
      | some a => rfl
      | none =>
        exfalso
        by_cases haudio : pj_stricmp r.local_m.media ID_AUDIO = 0
        · simp [pjmedia_stream_info_from_sdp, hres, from_sdp_fill, haudio,
            from_sdp_dir_addr, ha] at h
        · by_cases hvideo : pj_stricmp r.local_m.media ID_VIDEO = 0
          · simp [pjmedia_stream_info_from_sdp, hres, from_sdp_fill, haudio, hvideo,
              from_sdp_dir_addr, ha] at h
          · simp [pjmedia_stream_info_from_sdp, hres, from_sdp_fill, haudio, hvideo] at h
  obtain ⟨si0, hdir, heq⟩ := from_sdp_of_steps h14
  rw [heq] at h
  refine ⟨si0, hdir, ?_, ?_⟩
  · exact congrArg Prod.fst h
  · exact Option.some.inj (congrArg Prod.snd h)

/-- Below `2 ^ 31` the conversion to `int` keeps the value, which is then
not the `-1` that marks an unset event type. -/
theorem int_of_unsigned_of_lt (n : Nat) (h : n < 2 ^ 31) :
    int_of_unsigned n = (n : Int) ∧ int_of_unsigned n ≠ -1 := by
  have h1 : n % 2 ^ 32 = n := Nat.mod_eq_of_lt (by omega)
  unfold int_of_unsigned
  rw [h1, if_pos h]
  exact ⟨rfl, by omega⟩

theorem scan_event_pt_none (E : Env) (attrs : List pjmedia_sdp_attr) (event_pt : Int)
    (hno : ∀ a ∈ attrs, ∀ rm, ¬ EventRtpmap E a rm) :
    scan_event_pt E attrs event_pt = event_pt := by
  induction attrs with
  | nil => rfl
  | cons a attrs ih =>
    have ih' := ih fun b hb => hno b (List.mem_cons_of_mem a hb)
    unfold scan_event_pt
    by_cases hname : pj_strcmp a.name ID_RTPMAP = 0
    · simp only [hname, ne_eq, not_true_eq_false, if_false]
      cases hget : E.pjmedia_sdp_attr_get_rtpmap a with
      | error e => simpa using ih'
      | ok rm =>
        by_cases henc : pj_strcmp rm.enc_name ID_TELEPHONE_EVENT = 0
        · exact absurd ⟨(pj_strcmp_eq_zero_iff _ _).1 hname, hget,
            (pj_strcmp_eq_zero_iff _ _).1 henc⟩ (hno a (List.mem_cons_self a attrs) rm)
        · simpa [henc] using ih'
    · simpa [hname] using ih'

theorem scan_event_pt_first (E : Env) (pre : List pjmedia_sdp_attr) (a : pjmedia_sdp_attr)
    (post : List pjmedia_sdp_attr) (rm : pjmedia_sdp_rtpmap) (event_pt : Int)
    (hpre : ∀ b ∈ pre, ∀ rm', ¬ EventRtpmap E b rm') (ha : EventRtpmap E a rm) :
    scan_event_pt E (pre ++ a :: post) event_pt = int_of_unsigned (E.pj_strtoul rm.pt) := by
  induction pre with
  | nil =>
    obtain ⟨hname, hget, henc⟩ := ha
    have h1 : pj_strcmp a.name ID_RTPMAP = 0 := (pj_strcmp_eq_zero_iff _ _).2 hname
    have h2 : pj_strcmp rm.enc_name ID_TELEPHONE_EVENT = 0 := (pj_strcmp_eq_zero_iff _ _).2 henc
    simp [scan_event_pt, h1, hget, h2]
  | cons b pre ih =>
    have ih' := ih fun c hc => hpre c (List.mem_cons_of_mem b hc)
    rw [List.cons_append]
    have hb : scan_event_pt E (b :: (pre ++ a :: post)) event_pt =
        scan_event_pt E (pre ++ a :: post) event_pt := by
      have hnb := hpre b (List.mem_cons_self b pre)
      conv_lhs => unfold scan_event_pt
      by_cases hname : pj_strcmp b.name ID_RTPMAP = 0
      · simp only [hname, ne_eq, not_true_eq_false, if_false]
        cases hget : E.pjmedia_sdp_attr_get_rtpmap b with
        | error e => rfl
        | ok rm' =>
          by_cases henc : pj_strcmp rm'.enc_name ID_TELEPHONE_EVENT = 0
          · exact absurd ⟨(pj_strcmp_eq_zero_iff _ _).1 hname, hget,
              (pj_strcmp_eq_zero_iff _ _).1 henc⟩ (hnb rm')
          · simp [henc]
      · simp [hname]
    rw [hb, ih']

/-! ## The claims -/

/-- C4. When steps 1-4 pass, the local first format token is numeric and
below 96, the local media line has an rtpmap attribute for that payload
number and it parses, and the remote first format token is numeric, then
`pjmedia_stream_info_from_sdp` succeeds; the codec has the encoding name and
the clock rate of that rtpmap and the local payload number, and `tx_pt` is
the local payload number. Nothing else of the remote format list matters. -/
theorem static_pt_codec_from_rtpmap (E : Env) (loc rem : pjmedia_sdp_session)
    (stream_idx : Nat) (r : Resolved) (attr : pjmedia_sdp_attr) (rtpmap : pjmedia_sdp_rtpmap)
    (h14 : passes_steps_1_4 E loc rem stream_idx r)
    (hl : all_digits (fmt0 r.local_m) = true)
    (hlt : E.pj_strtoul (fmt0 r.local_m) < 96)
    (hattr : E.pjmedia_sdp_media_find_attr r.local_m ID_RTPMAP (some (fmt0 r.local_m)) =
      some attr)
    (hparse : E.pjmedia_sdp_attr_to_rtpmap attr = .ok rtpmap)
    (hr : all_digits (fmt0 r.rem_m) = true) :
    ∃ si, pjmedia_stream_info_from_sdp E loc rem stream_idx = (PJ_SUCCESS, some si) ∧
      si.fmt.encoding_name = rtpmap.enc_name ∧
      si.fmt.sample_rate = rtpmap.clock_rate ∧
      si.fmt.pt = E.pj_strtoul (fmt0 r.local_m) ∧
      si.tx_pt = E.pj_strtoul (fmt0 r.local_m) := by
  obtain ⟨si0, -, heq⟩ := from_sdp_of_steps h14
  rw [heq, from_sdp_codec_static_rtpmap si0 (first_char_of_all_digits hl)
    (first_char_of_all_digits hr) hlt hattr hparse]
  exact ⟨_, rfl, rfl, rfl, rfl, rfl⟩

/-- C2 as amended. When steps 1-4 pass, the local first format token is
numeric and at least 96 with a local rtpmap that parses, the remote first
format token begins with a digit, and `f` is the first remote format token
in list order that is at least 96, has its own rtpmap that parses, and agrees
with the local rtpmap in encoding name (ignoring case) and clock rate, then,
unless the number of `f` is 65535 (the value `0xFFFF` that marks "not found"),
`pjmedia_stream_info_from_sdp` succeeds with `tx_pt` the number of `f` and
the codec payload type the local number. -/
theorem dynamic_pt_first_remote_match (E : Env) (loc rem : pjmedia_sdp_session)
    (stream_idx : Nat) (r : Resolved) (attr : pjmedia_sdp_attr) (rtpmap : pjmedia_sdp_rtpmap)
    (pre : List pj_str_t) (f : pj_str_t) (post : List pj_str_t)
    (h14 : passes_steps_1_4 E loc rem stream_idx r)
    (hl : all_digits (fmt0 r.local_m) = true)
    (hge : 96 ≤ E.pj_strtoul (fmt0 r.local_m))
    (hattr : E.pjmedia_sdp_media_find_attr r.local_m ID_RTPMAP (some (fmt0 r.local_m)) =
      some attr)
    (hparse : E.pjmedia_sdp_attr_to_rtpmap attr = .ok rtpmap)
    (hfmt : r.rem_m.fmt = pre ++ f :: post)
    (hpre : ∀ g ∈ pre, ¬ RemoteMatch E r.rem_m rtpmap g)
    (hf : RemoteMatch E r.rem_m rtpmap f)
    (hr : pj_isdigit (first_char (fmt0 r.rem_m)) = true)
    (hne : E.pj_strtoul f ≠ 0xFFFF) :
    ∃ si, pjmedia_stream_info_from_sdp E loc rem stream_idx = (PJ_SUCCESS, some si) ∧
      si.tx_pt = E.pj_strtoul f ∧
      si.fmt.pt = E.pj_strtoul (fmt0 r.local_m) := by
  obtain ⟨si0, -, heq⟩ := from_sdp_of_steps h14
  obtain ⟨h1, h2, h3⟩ :=
    from_sdp_codec_dynamic_rtpmap si0 (first_char_of_all_digits hl) hr hge hattr hparse
  have hscan : scan_remote_fmt E r.rem_m rtpmap r.rem_m.fmt 0xFFFF = E.pj_strtoul f := by
    rw [hfmt]
    exact scan_remote_fmt_first E r.rem_m rtpmap pre f post 0xFFFF hpre hf
  rw [hscan] at h1 h2
  rw [if_neg hne] at h1
  refine ⟨(from_sdp_codec E r si0).2, ?_, h2, h3⟩
  rw [heq, h1]

/-- C2, witness: local `RTP/AVP 97` with `rtpmap:97 opus/48000` against remote
`RTP/AVP 98` with `rtpmap:98 opus/48000` gives `tx_pt = 98` and codec payload
type 97. -/
theorem dynamic_pt_first_remote_match_witness :
    ∃ si, pjmedia_stream_info_from_sdp (refEnv none) (sdp_of [ex_opus_97]) (sdp_of [ex_opus_98])
        0 = (PJ_SUCCESS, some si) ∧ si.tx_pt = 98 ∧ si.fmt.pt = 97 :=
  dynamic_pt_first_remote_match (refEnv none) (sdp_of [ex_opus_97]) (sdp_of [ex_opus_98]) 0
    (ex_resolved ex_opus_97 ex_opus_98) ⟨"rtpmap".toList, "97 opus/48000".toList⟩
    ⟨"97".toList, "opus".toList, 48000⟩ [] "98".toList []
    ⟨rfl, Or.inl (by decide), by decide⟩ (by decide) (by decide) (by decide) rfl rfl
    (fun _ hg => by cases hg)
    ⟨by decide, ⟨"rtpmap".toList, "98 opus/48000".toList⟩, ⟨"98".toList, "opus".toList, 48000⟩,
      by decide, rfl, by decide, by decide⟩
    (by decide) (by decide)

/-- C2, counterexamples. Both description pairs pass steps 1-4, the local first
format token is `97` with `rtpmap:97 opus/48000`, and the remote media line has
a dynamic format with a matching rtpmap; yet the call does not succeed.
First pair: the matching remote format is `65535`, so `tx_pt` is set to
`0xFFFF` and the call returns `PJMEDIA_EMISSINGRTPMAP`. Second pair: the
remote formats are `x 98`; `98` matches, but the first token does not begin
with a digit and the call returns `PJMEDIA_EINVALIDPT`. -/
theorem dynamic_pt_match_counterexample :
    (passes_steps_1_4 (refEnv none) (sdp_of [ex_opus_97]) (sdp_of [ex_opus_65535]) 0
        (ex_resolved ex_opus_97 ex_opus_65535) ∧
      RemoteMatch (refEnv none) ex_opus_65535 ⟨"97".toList, "opus".toList, 48000⟩
        "65535".toList ∧
      (pjmedia_stream_info_from_sdp (refEnv none) (sdp_of [ex_opus_97])
        (sdp_of [ex_opus_65535]) 0).1 = error PJMEDIA_EMISSINGRTPMAP) ∧
    (passes_steps_1_4 (refEnv none) (sdp_of [ex_opus_97]) (sdp_of [ex_opus_x_98]) 0
        (ex_resolved ex_opus_97 ex_opus_x_98) ∧
      RemoteMatch (refEnv none) ex_opus_x_98 ⟨"97".toList, "opus".toList, 48000⟩
        "98".toList ∧
      (pjmedia_stream_info_from_sdp (refEnv none) (sdp_of [ex_opus_97])
        (sdp_of [ex_opus_x_98]) 0).1 = error PJMEDIA_EINVALIDPT) :=
  ⟨⟨⟨rfl, Or.inl (by decide), by decide⟩,
      ⟨by decide, ⟨"rtpmap".toList, "65535 opus/48000".toList⟩,
        ⟨"65535".toList, "opus".toList, 48000⟩, by decide, rfl, by decide, by decide⟩,
      by decide⟩,
    ⟨⟨rfl, Or.inl (by decide), by decide⟩,
      ⟨by decide, ⟨"rtpmap".toList, "98 opus/48000".toList⟩,
        ⟨"98".toList, "opus".toList, 48000⟩, by decide, rfl, by decide, by decide⟩,
      by decide⟩⟩

/-- C3 as amended. When steps 1-4 pass, the local first format token is
numeric and at least 96 with a local rtpmap that parses, and no remote format
token is at least 96 with an rtpmap of its own that parses and agrees with
the local one in encoding name (ignoring case) and clock rate, then
`pjmedia_stream_info_from_sdp` never succeeds; it returns
`PJMEDIA_EMISSINGRTPMAP` when the remote first format token begins with a
digit, and `PJMEDIA_EINVALIDPT` when it begins with another character. -/
theorem dynamic_pt_no_remote_match (E : Env) (loc rem : pjmedia_sdp_session)
    (stream_idx : Nat) (r : Resolved) (attr : pjmedia_sdp_attr) (rtpmap : pjmedia_sdp_rtpmap)
    (h14 : passes_steps_1_4 E loc rem stream_idx r)
    (hl : all_digits (fmt0 r.local_m) = true)
    (hge : 96 ≤ E.pj_strtoul (fmt0 r.local_m))
    (hattr : E.pjmedia_sdp_media_find_attr r.local_m ID_RTPMAP (some (fmt0 r.local_m)) =
      some attr)
    (hparse : E.pjmedia_sdp_attr_to_rtpmap attr = .ok rtpmap)
    (hno : ∀ g ∈ r.rem_m.fmt, ¬ RemoteMatch E r.rem_m rtpmap g) :
    (pjmedia_stream_info_from_sdp E loc rem stream_idx).1 ≠ PJ_SUCCESS ∧
      (pj_isdigit (first_char (fmt0 r.rem_m)) = true →
        (pjmedia_stream_info_from_sdp E loc rem stream_idx).1 = error PJMEDIA_EMISSINGRTPMAP) ∧
      ((∃ c cs fs, r.rem_m.fmt = (c :: cs) :: fs ∧ pj_isdigit c = false) →
        (pjmedia_stream_info_from_sdp E loc rem stream_idx).1 = error PJMEDIA_EINVALIDPT) := by
  obtain ⟨si0, -, heq⟩ := from_sdp_of_steps h14
  have hdigit : pj_isdigit (first_char (fmt0 r.rem_m)) = true →
      (pjmedia_stream_info_from_sdp E loc rem stream_idx).1 = error PJMEDIA_EMISSINGRTPMAP := by
    intro hr
    obtain ⟨h1, -, -⟩ :=
      from_sdp_codec_dynamic_rtpmap si0 (first_char_of_all_digits hl) hr hge hattr hparse
    rw [scan_remote_fmt_none E r.rem_m rtpmap r.rem_m.fmt 0xFFFF hno] at h1
    rw [heq]
    simpa using h1
  have hother : pj_isdigit (first_char (fmt0 r.rem_m)) = false →
      (pjmedia_stream_info_from_sdp E loc rem stream_idx).1 = error PJMEDIA_EINVALIDPT := by
    intro hr
    rw [heq, from_sdp_codec_not_digit si0 (Or.inr hr)]
  refine ⟨?_, hdigit, ?_⟩
  · cases hr : pj_isdigit (first_char (fmt0 r.rem_m)) with
    | true => rw [hdigit hr]; exact fun h => by cases h
    | false => rw [hother hr]; exact fun h => by cases h
  · rintro ⟨c, cs, fs, hfmt, hc⟩
    exact hother (by simpa [fmt0, first_char, hfmt] using hc)

/-- C3, witness: local `RTP/AVP 97` with `rtpmap:97 opus/48000` against remote
`RTP/AVP 98` with `rtpmap:98 speex/16000` returns `PJMEDIA_EMISSINGRTPMAP`. -/
theorem dynamic_pt_no_remote_match_witness :
    (pjmedia_stream_info_from_sdp (refEnv none) (sdp_of [ex_opus_97]) (sdp_of [ex_speex_98])
        0).1 = error PJMEDIA_EMISSINGRTPMAP :=
  (dynamic_pt_no_remote_match (refEnv none) (sdp_of [ex_opus_97]) (sdp_of [ex_speex_98]) 0
    (ex_resolved ex_opus_97 ex_speex_98) ⟨"rtpmap".toList, "97 opus/48000".toList⟩
    ⟨"97".toList, "opus".toList, 48000⟩
    ⟨rfl, Or.inl (by decide), by decide⟩ (by decide) (by decide) (by decide) rfl
    (by
      intro g hg hmatch
      have hg' : g = "98".toList := by
        simpa [ex_resolved, ex_speex_98, audio_line] using hg
      subst hg'
      obtain ⟨-, r_attr, r_rtpmap, hfind, hget, henc, -⟩ := hmatch
      have h1 : r_attr = ⟨"rtpmap".toList, "98 speex/16000".toList⟩ :=
        (Option.some.inj hfind).symm
      subst h1
      have h2 : r_rtpmap = ⟨"98".toList, "speex".toList, 16000⟩ :=
        (Except.ok.inj hget).symm
      subst h2
      revert henc
      decide)).2.1 (by decide)

/-- C3, counterexample: local `RTP/AVP 97` with `rtpmap:97 opus/48000` against
remote `RTP/AVP x`. Steps 1-4 pass and no remote format matches, but the call
returns `PJMEDIA_EINVALIDPT`, not `PJMEDIA_EMISSINGRTPMAP`. -/
theorem dynamic_pt_no_remote_match_counterexample :
    passes_steps_1_4 (refEnv none) (sdp_of [ex_opus_97]) (sdp_of [ex_plain_x]) 0
        (ex_resolved ex_opus_97 ex_plain_x) ∧
      (∀ g ∈ ex_plain_x.fmt, (refEnv none).pj_strtoul g < 96) ∧
      (pjmedia_stream_info_from_sdp (refEnv none) (sdp_of [ex_opus_97]) (sdp_of [ex_plain_x])
        0).1 = error PJMEDIA_EINVALIDPT :=
  ⟨⟨rfl, Or.inl (by decide), by decide⟩, by decide, by decide⟩

/-- C5 as amended. When steps 1-4 pass, the local first format token is
numeric and at least 96, and the remote first format token begins with a
digit: if the local media line has no rtpmap attribute for that payload
number, `pjmedia_stream_info_from_sdp` returns `PJMEDIA_EMISSINGRTPMAP`; if
it has one that fails to parse, the call returns the status the rtpmap
parser failed with. -/
theorem dynamic_pt_local_rtpmap_required (E : Env) (loc rem : pjmedia_sdp_session)
    (stream_idx : Nat) (r : Resolved)
    (h14 : passes_steps_1_4 E loc rem stream_idx r)
    (hl : all_digits (fmt0 r.local_m) = true)
    (hge : 96 ≤ E.pj_strtoul (fmt0 r.local_m))
    (hr : pj_isdigit (first_char (fmt0 r.rem_m)) = true) :
    (E.pjmedia_sdp_media_find_attr r.local_m ID_RTPMAP (some (fmt0 r.local_m)) = none →
      (pjmedia_stream_info_from_sdp E loc rem stream_idx).1 = error PJMEDIA_EMISSINGRTPMAP) ∧
    (∀ attr e,
      E.pjmedia_sdp_media_find_attr r.local_m ID_RTPMAP (some (fmt0 r.local_m)) = some attr →
      E.pjmedia_sdp_attr_to_rtpmap attr = .error e →
      (pjmedia_stream_info_from_sdp E loc rem stream_idx).1 = error e) := by
  obtain ⟨si0, -, heq⟩ := from_sdp_of_steps h14
  constructor
  · intro hattr
    rw [heq, from_sdp_codec_dynamic_absent si0 (first_char_of_all_digits hl) hr hge hattr]
  · intro attr e hattr hparse
    rw [heq, from_sdp_codec_dynamic_unparsed si0 (first_char_of_all_digits hl) hr hge hattr
      hparse]

/-- C5, witness: local `RTP/AVP 99` with no rtpmap for 99 against remote
`RTP/AVP 0` returns `PJMEDIA_EMISSINGRTPMAP`. -/
theorem dynamic_pt_local_rtpmap_required_witness :
    (pjmedia_stream_info_from_sdp (refEnv none) (sdp_of [ex_plain_99]) (sdp_of [ex_plain_0])
      0).1 = error PJMEDIA_EMISSINGRTPMAP :=
  (dynamic_pt_local_rtpmap_required (refEnv none) (sdp_of [ex_plain_99]) (sdp_of [ex_plain_0]) 0
    (ex_resolved ex_plain_99 ex_plain_0) ⟨rfl, Or.inl (by decide), by decide⟩ (by decide)
    (by decide) (by decide)).1 (by decide)

/-- C5, counterexamples. First pair: local `RTP/AVP 97` with the unparsable
`rtpmap:97 opus` against remote `RTP/AVP 0`; the call returns the parser's
status, which is not `PJMEDIA_EMISSINGRTPMAP`. Second pair: local
`RTP/AVP 99` with no rtpmap against remote `RTP/AVP x`; the call returns
`PJMEDIA_EINVALIDPT`. Both pairs pass steps 1-4. -/
theorem dynamic_pt_local_rtpmap_counterexample :
    (passes_steps_1_4 (refEnv none) (sdp_of [ex_bad_rtpmap_97]) (sdp_of [ex_plain_0]) 0
        (ex_resolved ex_bad_rtpmap_97 ex_plain_0) ∧
      (refEnv none).pjmedia_sdp_media_find_attr ex_bad_rtpmap_97 ID_RTPMAP
        (some (fmt0 ex_bad_rtpmap_97)) = some ⟨"rtpmap".toList, "97 opus".toList⟩ ∧
      (refEnv none).pjmedia_sdp_attr_to_rtpmap ⟨"rtpmap".toList, "97 opus".toList⟩ =
        .error ref_EINRTPMAP ∧
      (pjmedia_stream_info_from_sdp (refEnv none) (sdp_of [ex_bad_rtpmap_97])
        (sdp_of [ex_plain_0]) 0).1 = error ref_EINRTPMAP ∧
      error ref_EINRTPMAP ≠ error PJMEDIA_EMISSINGRTPMAP) ∧
    (passes_steps_1_4 (refEnv none) (sdp_of [ex_plain_99]) (sdp_of [ex_plain_x]) 0
        (ex_resolved ex_plain_99 ex_plain_x) ∧
      (refEnv none).pjmedia_sdp_media_find_attr ex_plain_99 ID_RTPMAP
        (some (fmt0 ex_plain_99)) = none ∧
      (pjmedia_stream_info_from_sdp (refEnv none) (sdp_of [ex_plain_99])
        (sdp_of [ex_plain_x]) 0).1 = error PJMEDIA_EINVALIDPT) :=
  ⟨⟨⟨rfl, Or.inl (by decide), by decide⟩, by decide, rfl, by decide, by decide⟩,
    ⟨⟨rfl, Or.inl (by decide), by decide⟩, by decide, by decide⟩⟩

/-- C6. Whenever `pjmedia_stream_info_from_sdp` succeeds, the direction is
`PJMEDIA_DIR_NONE` if the local port is zero, or the local or the remote
connection address is the any-address, or the local media line carries
`inactive`, whatever other attributes it carries; otherwise it is
`PJMEDIA_DIR_ENCODING` if the local line carries `sendonly`, otherwise
`PJMEDIA_DIR_DECODING` if it carries `recvonly`, otherwise
`PJMEDIA_DIR_ENCODING_DECODING`. -/
theorem direction_precedence (E : Env) (loc rem : pjmedia_sdp_session) (stream_idx : Nat)
    (r : Resolved) (si : pjmedia_stream_info)
    (hres : resolve loc rem stream_idx = .ok r)
    (h : pjmedia_stream_info_from_sdp E loc rem stream_idx = (PJ_SUCCESS, some si)) :
    ((r.local_m.port = 0 ∨ E.pj_inet_addr r.local_conn.addr = 0 ∨
        E.pj_inet_addr r.rem_conn.addr = 0 ∨
        (E.pjmedia_sdp_media_find_attr r.local_m "inactive".toList none).isSome = true) →
      si.dir = PJMEDIA_DIR_NONE) ∧
    (¬ (r.local_m.port = 0 ∨ E.pj_inet_addr r.local_conn.addr = 0 ∨
        E.pj_inet_addr r.rem_conn.addr = 0 ∨
        (E.pjmedia_sdp_media_find_attr r.local_m "inactive".toList none).isSome = true) →
      ((E.pjmedia_sdp_media_find_attr r.local_m "sendonly".toList none).isSome = true →
        si.dir = PJMEDIA_DIR_ENCODING) ∧
      ((E.pjmedia_sdp_media_find_attr r.local_m "sendonly".toList none).isSome = false →
        ((E.pjmedia_sdp_media_find_attr r.local_m "recvonly".toList none).isSome = true →
          si.dir = PJMEDIA_DIR_DECODING) ∧
        ((E.pjmedia_sdp_media_find_attr r.local_m "recvonly".toList none).isSome = false →
          si.dir = PJMEDIA_DIR_ENCODING_DECODING))) := by
  obtain ⟨si0, hdir, -, hsi⟩ := from_sdp_success hres h
  have hd : si.dir = media_direction E r := by
    rw [← hsi, (from_sdp_codec_keeps E r si0).1, hdir]
  rw [hd]
  unfold media_direction STR_INACTIVE STR_SENDONLY STR_RECVONLY
  refine ⟨fun hnone => ?_, fun hnot => ⟨fun hs => ?_, fun hs => ⟨fun hr => ?_, fun hr => ?_⟩⟩⟩
  · rw [if_pos hnone]
  · rw [if_neg hnot]
    simp only [hs, if_true]
  · rw [if_neg hnot]
    simp only [hs, hr, if_true, Bool.false_eq_true, if_false]
  · rw [if_neg hnot]
    simp only [hs, hr, Bool.false_eq_true, if_false]

/-- C6, witness: a local media line on port 0 that carries `sendonly` gives
the direction `PJMEDIA_DIR_NONE`. -/
theorem direction_precedence_witness :
    ∃ si, pjmedia_stream_info_from_sdp (refEnv none) (sdp_of [ex_port0_sendonly])
        (sdp_of [ex_plain_0]) 0 = (PJ_SUCCESS, some si) ∧
      ((refEnv none).pjmedia_sdp_media_find_attr ex_port0_sendonly "sendonly".toList
        none).isSome = true ∧
      si.dir = PJMEDIA_DIR_NONE :=
  ⟨_, rfl, by decide,
    (direction_precedence (refEnv none) (sdp_of [ex_port0_sendonly]) (sdp_of [ex_plain_0]) 0
      (ex_resolved ex_port0_sendonly ex_plain_0) _ rfl rfl).1 (Or.inl rfl)⟩

/-- C7 as amended. Whenever `pjmedia_stream_info_from_sdp` succeeds:
`tx_event_pt` is `-1` if no attribute of the local media line is an rtpmap
that parses with encoding name `telephone-event`; and if there is one and the
payload number of the first such attribute in declaration order is below
`2 ^ 31`, `tx_event_pt` is that payload number and is not `-1`.
`rx_event_pt` is determined in the same way by the attributes of the remote
media line alone. -/
theorem dtmf_discovery_independent (E : Env) (loc rem : pjmedia_sdp_session)
    (stream_idx : Nat) (r : Resolved) (si : pjmedia_stream_info)
    (hres : resolve loc rem stream_idx = .ok r)
    (h : pjmedia_stream_info_from_sdp E loc rem stream_idx = (PJ_SUCCESS, some si)) :
    ((∀ a ∈ r.local_m.attr, ∀ rm, ¬ EventRtpmap E a rm) → si.tx_event_pt = -1) ∧
    (∀ pre a post rm, r.local_m.attr = pre ++ a :: post →
      (∀ b ∈ pre, ∀ rm', ¬ EventRtpmap E b rm') → EventRtpmap E a rm →
      E.pj_strtoul rm.pt < 2 ^ 31 →
      si.tx_event_pt = (E.pj_strtoul rm.pt : Int) ∧ si.tx_event_pt ≠ -1) ∧
    ((∀ a ∈ r.rem_m.attr, ∀ rm, ¬ EventRtpmap E a rm) → si.rx_event_pt = -1) ∧
    (∀ pre a post rm, r.rem_m.attr = pre ++ a :: post →
      (∀ b ∈ pre, ∀ rm', ¬ EventRtpmap E b rm') → EventRtpmap E a rm →
      E.pj_strtoul rm.pt < 2 ^ 31 →
      si.rx_event_pt = (E.pj_strtoul rm.pt : Int) ∧ si.rx_event_pt ≠ -1) := by
  obtain ⟨si0, -, hok, hsi⟩ := from_sdp_success hres h
  obtain ⟨htx, hrx⟩ := (from_sdp_codec_keeps E r si0).2 hok
  rw [hsi] at htx hrx
  rw [htx, hrx]
  refine ⟨scan_event_pt_none E _ (-1), ?_, scan_event_pt_none E _ (-1), ?_⟩
  · intro pre a post rm hattr hpre ha hlt
    rw [hattr, scan_event_pt_first E pre a post rm (-1) hpre ha]
    exact int_of_unsigned_of_lt _ hlt
  · intro pre a post rm hattr hpre ha hlt
    rw [hattr, scan_event_pt_first E pre a post rm (-1) hpre ha]
    exact int_of_unsigned_of_lt _ hlt

/-- C7, witness: a local media line without a telephone-event rtpmap against
a remote media line with `rtpmap:101 telephone-event/8000` gives
`tx_event_pt = -1` and `rx_event_pt = 101`. -/
theorem dtmf_discovery_independent_witness :
    ∃ si, pjmedia_stream_info_from_sdp (refEnv none) (sdp_of [ex_plain_0])
        (sdp_of [ex_with_dtmf]) 0 = (PJ_SUCCESS, some si) ∧
      si.tx_event_pt = -1 ∧ si.rx_event_pt = 101 :=
  ⟨_, rfl,
    (dtmf_discovery_independent (refEnv none) (sdp_of [ex_plain_0]) (sdp_of [ex_with_dtmf]) 0
      (ex_resolved ex_plain_0 ex_with_dtmf) _ rfl rfl).1 (fun _ ha => by cases ha),
    ((dtmf_discovery_independent (refEnv none) (sdp_of [ex_plain_0]) (sdp_of [ex_with_dtmf]) 0
      (ex_resolved ex_plain_0 ex_with_dtmf) _ rfl rfl).2.2.2 []
      ⟨"rtpmap".toList, "101 telephone-event/8000".toList⟩ []
      ⟨"101".toList, "telephone-event".toList, 8000⟩ rfl (fun _ hb => by cases hb)
      ⟨rfl, rfl, rfl⟩ (by decide)).1⟩

/-- C7, counterexample: a remote media line with
`rtpmap:4294967295 telephone-event/8000`. The call succeeds and the remote
media line has a telephone-event rtpmap that parses, but the payload number
4294967295 stored to the `int` field reads `-1`: `rx_event_pt` is the unset
value. -/
theorem dtmf_discovery_counterexample :
    ∃ si, pjmedia_stream_info_from_sdp (refEnv none) (sdp_of [ex_plain_0])
        (sdp_of [ex_dtmf_4294967295]) 0 = (PJ_SUCCESS, some si) ∧
      ex_dtmf_4294967295.attr =
        [⟨"rtpmap".toList, "4294967295 telephone-event/8000".toList⟩] ∧
      EventRtpmap (refEnv none) ⟨"rtpmap".toList, "4294967295 telephone-event/8000".toList⟩
        ⟨"4294967295".toList, "telephone-event".toList, 8000⟩ ∧
      (refEnv none).pj_strtoul "4294967295".toList = 4294967295 ∧
      si.rx_event_pt = -1 :=
  ⟨_, rfl, rfl, ⟨rfl, rfl, rfl⟩, by decide, by decide⟩

/-- The check of lines 162-163 at work: when steps 1-4 pass and the first
format token of the local media line or of the remote media line begins with
a character that is not a digit, `pjmedia_stream_info_from_sdp` returns
`PJMEDIA_EINVALIDPT`. -/
theorem first_fmt_char_not_digit (E : Env) (loc rem : pjmedia_sdp_session)
    (stream_idx : Nat) (r : Resolved)
    (h14 : passes_steps_1_4 E loc rem stream_idx r)
    (h : (∃ c cs fs, r.local_m.fmt = (c :: cs) :: fs ∧ pj_isdigit c = false) ∨
      (∃ c cs fs, r.rem_m.fmt = (c :: cs) :: fs ∧ pj_isdigit c = false)) :
    (pjmedia_stream_info_from_sdp E loc rem stream_idx).1 = error PJMEDIA_EINVALIDPT := by
  obtain ⟨si0, -, heq⟩ := from_sdp_of_steps h14
  rw [heq, from_sdp_codec_not_digit si0]
  rcases h with ⟨c, cs, fs, hfmt, hc⟩ | ⟨c, cs, fs, hfmt, hc⟩
  · left
    simpa [fmt0, first_char, hfmt] using hc
  · right
    simpa [fmt0, first_char, hfmt] using hc

/-- The check of lines 162-163 on local `RTP/AVP x` against remote
`RTP/AVP 0`: the call returns `PJMEDIA_EINVALIDPT`. -/
theorem first_fmt_char_not_digit_witness :
    (pjmedia_stream_info_from_sdp (refEnv none) (sdp_of [ex_plain_x]) (sdp_of [ex_plain_0])
      0).1 = error PJMEDIA_EINVALIDPT :=
  first_fmt_char_not_digit (refEnv none) (sdp_of [ex_plain_x]) (sdp_of [ex_plain_0]) 0
    (ex_resolved ex_plain_x ex_plain_0) ⟨rfl, Or.inl (by decide), by decide⟩
    (Or.inl ⟨'x', [], [], rfl, by decide⟩)

/-- When both first format tokens begin with a digit, whatever follows the
digit, the check of lines 162-163 passes and the call goes on to read the
local token with `pj_strtoul`. -/
theorem from_sdp_codec_first_digits (E : Env) (r : Resolved) (si0 : pjmedia_stream_info)
    (hl : pj_isdigit (first_char (fmt0 r.local_m)) = true)
    (hr : pj_isdigit (first_char (fmt0 r.rem_m)) = true) :
    from_sdp_codec E r si0 =
      if E.pj_strtoul (fmt0 r.local_m) < 96 then
        from_sdp_static E r (E.pj_strtoul (fmt0 r.local_m)) si0
      else from_sdp_dynamic E r si0 := by
  simp only [from_sdp_codec, hl, hr, Bool.not_true, Bool.or_self, Bool.false_eq_true, if_false]

/-- C8, evaluated where the claim fails: local `RTP/AVP 0abc` against remote
`RTP/AVP 0`. Steps 1-4 pass and the local first format token is not numeric,
but its first character is a digit, so the check of lines 162-163 lets it
pass and `pj_strtoul` is applied to `0abc`. With a `pj_strtoul` that stops at
the first character that is not a digit, the call takes payload type 0 and
returns `PJ_SUCCESS`; with one that takes in every character, it takes payload
type 5451, finds no rtpmap and returns `PJMEDIA_EMISSINGRTPMAP`. In neither
case does it return `PJMEDIA_EINVALIDPT`. -/
theorem first_fmt_check_tests_one_character :
    all_digits (fmt0 ex_plain_0abc) = false ∧
      pj_isdigit (first_char (fmt0 ex_plain_0abc)) = true ∧
      passes_steps_1_4 (refEnv none) (sdp_of [ex_plain_0abc]) (sdp_of [ex_plain_0]) 0
        (ex_resolved ex_plain_0abc ex_plain_0) ∧
      (pjmedia_stream_info_from_sdp (refEnv none) (sdp_of [ex_plain_0abc]) (sdp_of [ex_plain_0])
        0).1 = PJ_SUCCESS ∧
      passes_steps_1_4 refEnv_strtoul_all (sdp_of [ex_plain_0abc]) (sdp_of [ex_plain_0]) 0
        (ex_resolved ex_plain_0abc ex_plain_0) ∧
      refEnv_strtoul_all.pj_strtoul (fmt0 ex_plain_0abc) = 5451 ∧
      (pjmedia_stream_info_from_sdp refEnv_strtoul_all (sdp_of [ex_plain_0abc])
        (sdp_of [ex_plain_0]) 0).1 = error PJMEDIA_EMISSINGRTPMAP :=
  ⟨by decide, by decide, ⟨rfl, Or.inl (by decide), by decide⟩, by decide,
    ⟨rfl, Or.inl (by decide), by decide⟩, by decide, by decide⟩

/-! ## The session: rollback, `get_info`, index checks -/

/-- Entered at an index `n` that is not negative, the loop of lines 373-375
calls destroy on every slot from `n` to the end of `stream[]` and then reads
past the end of the array: its condition `i >= 0` stays true as `i` grows. -/
theorem create_rollback_nat (session : pjmedia_session) (k n : Nat) (w : World)
    (hk : session.stream.length - n = k) :
    create_rollback session (n : Int) w =
      (Outcome.undefined, w ++ destroy_calls n (session.stream.drop n)) := by
  induction k generalizing n w with
  | zero =>
    have hle : session.stream.length ≤ n := by omega
    rw [create_rollback]
    simp only [Int.toNat_ofNat, Int.ofNat_zero_le, if_true, Nat.not_lt.2 hle, dite_false]
    rw [List.drop_eq_nil_of_le hle]
    simp [destroy_calls]
  | succ k ih =>
    have hlt : n < session.stream.length := by omega
    rw [create_rollback]
    simp only [Int.toNat_ofNat, Int.ofNat_zero_le, if_true, hlt, dite_true]
    have hcast : ((n : Int) + 1) = ((n + 1 : Nat) : Int) := by push_cast; rfl
    rw [hcast, ih (n + 1) _ (by omega), List.drop_eq_getElem_cons hlt]
    simp [destroy_calls]

/-- The loop of lines 373-375 in closed form. -/
theorem create_rollback_eq (session : pjmedia_session) (i : Int) (w : World) :
    create_rollback session i w =
      if 0 ≤ i then
        (Outcome.undefined, w ++ destroy_calls i.toNat (session.stream.drop i.toNat))
      else (Outcome.returns (), w) := by
  by_cases hi : 0 ≤ i
  · obtain ⟨n, rfl⟩ := Int.eq_ofNat_of_zero_le hi
    rw [if_pos hi, create_rollback_nat session _ n w rfl]
    rfl
  · rw [if_neg hi, create_rollback]
    simp [hi]

/-- C1, evaluated where the claim fails: two media lines that both negotiate,
and a stream factory whose create fails at index 1. The claim has
`pjmedia_session_create` return that error after one destroy, on index 0. The
rollback loop `for ( --i; i>=0; ++i)` counts upward instead: destroy is called
on the slots 0, 1, 2 and 3 (the reference environment has
`PJMEDIA_MAX_SDP_MEDIA = 4`), and the next read is past the end of
`session->stream[]`; the call does not return a status. -/
theorem create_rollback_counts_upward :
    (pjmedia_session_create (refEnv (some 1)) 2 ex_skinfo ex_two_lines ex_two_lines 0 []).1 =
        Outcome.undefined ∧
      destroyed_indices
        (pjmedia_session_create (refEnv (some 1)) 2 ex_skinfo ex_two_lines ex_two_lines 0 []).2 =
        [0, 1, 2, 3] := by
  simp only [pjmedia_session_create, create_streams, create_rollback_eq]
  decide

/-- C9, evaluated where the claim fails: `pjmedia_session_create` with a
requested stream count of 1 over descriptions with two media lines succeeds,
negotiates both media lines and creates two streams, but the session keeps
`stream_cnt = 1` (it is stored before the count is raised to the number of
local media lines), and `pjmedia_session_get_info` reports one stream. -/
theorem get_info_reports_requested_count :
    ∃ session w info,
      pjmedia_session_create (refEnv none) 1 ex_skinfo ex_two_lines ex_two_lines 0 [] =
        (Outcome.returns (PJ_SUCCESS, some session), w) ∧
      count_creates w = 2 ∧
      pjmedia_session_get_info (some session) (some ex_info) =
        Outcome.returns (PJ_SUCCESS, some info) ∧
      info.stream_cnt = 1 :=
  ⟨_, _, _, rfl, by decide, rfl, by decide⟩

/-- C10, evaluated where the claim fails: on a session with `stream_cnt = 2`
and index 2, `pjmedia_session_get_port`, `pjmedia_session_dial_dtmf`,
`pjmedia_session_check_dtmf` and `pjmedia_session_get_dtmf` each call the
stream function on `session->stream[2]` and return what it returns; only
`pjmedia_session_get_stream_stat` returns `PJ_EINVAL` without a call. -/
theorem accessors_do_not_check_index :
    ex_session.stream_cnt = 2 ∧
    pjmedia_session_get_port (refEnv none) (some ex_session) 2 [] =
      (Outcome.returns ((refEnv none).pjmedia_stream_get_port [] none),
        [StreamCall.get_port 2 none]) ∧
    pjmedia_session_dial_dtmf (refEnv none) (some ex_session) 2 (some "1".toList) [] =
      (Outcome.returns ((refEnv none).pjmedia_stream_dial_dtmf [] none "1".toList),
        [StreamCall.dial_dtmf 2 none "1".toList]) ∧
    pjmedia_session_check_dtmf (refEnv none) (some ex_session) 2 [] =
      (Outcome.returns ((refEnv none).pjmedia_stream_check_dtmf [] none),
        [StreamCall.check_dtmf 2 none]) ∧
    pjmedia_session_get_dtmf (refEnv none) (some ex_session) 2 true true [] =
      (Outcome.returns ((refEnv none).pjmedia_stream_get_dtmf [] none),
        [StreamCall.get_dtmf 2 none]) ∧
    pjmedia_session_get_stream_stat (refEnv none) (some ex_session) 2 true [] =
      (Outcome.returns (error PJ_EINVAL, none), []) :=
  ⟨rfl, rfl, rfl, rfl, rfl, rfl⟩

/-- C4, witness: local `RTP/AVP 8` with `rtpmap:8 PCMA/8000` against remote
`RTP/AVP 0` succeeds with codec PCMA/8000, payload type 8 and `tx_pt = 8`. -/
theorem static_pt_codec_from_rtpmap_witness :
    ∃ si, pjmedia_stream_info_from_sdp (refEnv none) (sdp_of [ex_pcma_8]) (sdp_of [ex_plain_0])
        0 = (PJ_SUCCESS, some si) ∧
      si.fmt.encoding_name = "PCMA".toList ∧ si.fmt.sample_rate = 8000 ∧
      si.fmt.pt = 8 ∧ si.tx_pt = 8 :=
  static_pt_codec_from_rtpmap (refEnv none) (sdp_of [ex_pcma_8]) (sdp_of [ex_plain_0]) 0
    (ex_resolved ex_pcma_8 ex_plain_0) ⟨"rtpmap".toList, "8 PCMA/8000".toList⟩
    ⟨"8".toList, "PCMA".toList, 8000⟩ ⟨rfl, Or.inl (by decide), by decide⟩
    (by decide) (by decide) (by decide) rfl (by decide)

/-! ## Connection, media type and static fallback -/

/-- The codec step never touches the media type. -/
theorem from_sdp_codec_type (E : Env) (r : Resolved) (si0 : pjmedia_stream_info) :
    (from_sdp_codec E r si0).2.type = si0.type := by
  unfold from_sdp_codec
  split
  · rfl
  · simp only []
    split
    · unfold from_sdp_static
      simp only [from_sdp_dtmf_eq]
      split
      · rfl
      · split <;> rfl
    · unfold from_sdp_dynamic
      simp only [from_sdp_dtmf_eq]
      split
      · rfl
      · split
        · rfl
        · split <;> rfl

/-- The direction and address step never touches the media type. -/
theorem from_sdp_dir_addr_type (E : Env) (r : Resolved) (si0 : pjmedia_stream_info) :
    (from_sdp_dir_addr E r si0).2.type = si0.type := by
  unfold from_sdp_dir_addr
  simp only []
  split
  · rfl
  · rw [from_sdp_codec_type]

/-- C16. For an index within both descriptions, each side's connection is the
one of the media line when it has one and the session-level one otherwise. If
the local or the remote side has neither, `pjmedia_stream_info_from_sdp`
returns `PJMEDIA_SDP_EMISSINGCONN` whatever the environment and the rest of
the descriptions are, and has written nothing to `*si`; otherwise the call
goes on with the connections so chosen. -/
theorem connection_resolution (E : Env) (loc rem : pjmedia_sdp_session) (stream_idx : Nat)
    (local_m rem_m : pjmedia_sdp_media)
    (hl : loc.media[stream_idx]? = some local_m)
    (hr : rem.media[stream_idx]? = some rem_m) :
    (((local_m.conn = none ∧ loc.conn = none) ∨ (rem_m.conn = none ∧ rem.conn = none)) →
      pjmedia_stream_info_from_sdp E loc rem stream_idx =
        (error PJMEDIA_SDP_EMISSINGCONN, none)) ∧
    (∀ r, resolve loc rem stream_idx = .ok r →
      r.local_m = local_m ∧ r.rem_m = rem_m ∧
      (∀ c, local_m.conn = some c → r.local_conn = c) ∧
      (local_m.conn = none → loc.conn = some r.local_conn) ∧
      (∀ c, rem_m.conn = some c → r.rem_conn = c) ∧
      (rem_m.conn = none → rem.conn = some r.rem_conn) ∧
      pjmedia_stream_info_from_sdp E loc rem stream_idx =
        ((from_sdp_fill E r).1, some (from_sdp_fill E r).2)) := by
  constructor
  · rintro (⟨h1, h2⟩ | ⟨h1, h2⟩)
    · simp [pjmedia_stream_info_from_sdp, resolve, hl, hr, h1, h2]
    · cases hlc : local_m.conn with
      | none =>
        cases hsc : loc.conn with
        | none => simp [pjmedia_stream_info_from_sdp, resolve, hl, hr, h1, h2, hlc, hsc]
        | some c => simp [pjmedia_stream_info_from_sdp, resolve, hl, hr, h1, h2, hlc, hsc]
      | some c => simp [pjmedia_stream_info_from_sdp, resolve, hl, hr, h1, h2, hlc]
  · intro r hres
    have hcall : pjmedia_stream_info_from_sdp E loc rem stream_idx =
        ((from_sdp_fill E r).1, some (from_sdp_fill E r).2) := by
      simp only [pjmedia_stream_info_from_sdp, hres]
    cases hlc : local_m.conn with
    | none =>
      cases hsc : loc.conn with
      | none => simp [resolve, hl, hr, hlc, hsc] at hres
      | some lc =>
        cases hrc : rem_m.conn with
        | none =>
          cases hsr : rem.conn with
          | none => simp [resolve, hl, hr, hlc, hsc, hrc, hsr] at hres
          | some rc =>
            simp [resolve, hl, hr, hlc, hsc, hrc, hsr] at hres
            subst hres
            simp [hcall]
        | some rc =>
          simp [resolve, hl, hr, hlc, hsc, hrc] at hres
          subst hres
          simp [hcall]
    | some lc =>
      cases hrc : rem_m.conn with
      | none =>
        cases hsr : rem.conn with
        | none => simp [resolve, hl, hr, hlc, hrc, hsr] at hres
        | some rc =>
          simp [resolve, hl, hr, hlc, hrc, hsr] at hres
          subst hres
          simp [hcall]
      | some rc =>
        simp [resolve, hl, hr, hlc, hrc] at hres
        subst hres
        simp [hcall]

/-- C16, witness: a local description with no connection line at all, on a
media line whose type `text` would fail the next step, returns
`PJMEDIA_SDP_EMISSINGCONN` and writes nothing. -/
theorem connection_resolution_witness :
    pjmedia_stream_info_from_sdp (refEnv none) (sdp_no_conn ex_text_line) (sdp_of [ex_plain_0])
      0 = (error PJMEDIA_SDP_EMISSINGCONN, none) :=
  (connection_resolution (refEnv none) (sdp_no_conn ex_text_line) (sdp_of [ex_plain_0]) 0
    { ex_text_line with conn := none } ex_plain_0 rfl rfl).1 (Or.inl ⟨rfl, rfl⟩)

/-- C17. With both connections present, the media type written to `*si` is
`PJMEDIA_TYPE_AUDIO` exactly when the local media-line type token is `audio`
ignoring case, and `PJMEDIA_TYPE_VIDEO` exactly when it is `video` ignoring
case; for any other token `pjmedia_stream_info_from_sdp` returns
`PJMEDIA_EINVALIMEDIATYPE` and `*si` holds `PJMEDIA_TYPE_UNKNOWN` with every
other field zero. -/
theorem media_type_resolution (E : Env) (loc rem : pjmedia_sdp_session) (stream_idx : Nat)
    (r : Resolved) (hres : resolve loc rem stream_idx = .ok r) :
    (∃ si, (pjmedia_stream_info_from_sdp E loc rem stream_idx).2 = some si ∧
      (si.type = PJMEDIA_TYPE_AUDIO ↔ r.local_m.media.map pj_tolower = "audio".toList) ∧
      (si.type = PJMEDIA_TYPE_VIDEO ↔ r.local_m.media.map pj_tolower = "video".toList)) ∧
    (r.local_m.media.map pj_tolower ≠ "audio".toList →
      r.local_m.media.map pj_tolower ≠ "video".toList →
      pjmedia_stream_info_from_sdp E loc rem stream_idx =
        (error PJMEDIA_EINVALIMEDIATYPE,
          some { zero_stream_info with type := PJMEDIA_TYPE_UNKNOWN }) ∧
      ({ zero_stream_info with type := PJMEDIA_TYPE_UNKNOWN } : pjmedia_stream_info) =
        zero_stream_info) := by
  have haudio : pj_stricmp r.local_m.media ID_AUDIO = 0 ↔
      r.local_m.media.map pj_tolower = "audio".toList := by
    rw [pj_stricmp_eq_zero_iff]
    have : ID_AUDIO.map pj_tolower = "audio".toList := by decide
    rw [this]
  have hvideo : pj_stricmp r.local_m.media ID_VIDEO = 0 ↔
      r.local_m.media.map pj_tolower = "video".toList := by
    rw [pj_stricmp_eq_zero_iff]
    have : ID_VIDEO.map pj_tolower = "video".toList := by decide
    rw [this]
  have hne : ("audio".toList : pj_str_t) ≠ "video".toList := by decide
  have hcall : pjmedia_stream_info_from_sdp E loc rem stream_idx =
      ((from_sdp_fill E r).1, some (from_sdp_fill E r).2) := by
    simp only [pjmedia_stream_info_from_sdp, hres]
  rw [hcall]
  by_cases ha : pj_stricmp r.local_m.media ID_AUDIO = 0
  · have ha' := haudio.1 ha
    have ht : (from_sdp_fill E r).2.type = PJMEDIA_TYPE_AUDIO := by
      simp only [from_sdp_fill, ha, if_true]
      rw [from_sdp_dir_addr_type]
    refine ⟨⟨_, rfl, ⟨fun _ => ha', fun _ => ht⟩, ⟨fun h => ?_, fun h => ?_⟩⟩,
      fun h => absurd ha' h⟩
    · rw [ht] at h
      cases h
    · exact absurd (ha'.symm.trans h) hne
  · have ha' : r.local_m.media.map pj_tolower ≠ "audio".toList := fun h => ha (haudio.2 h)
    by_cases hv : pj_stricmp r.local_m.media ID_VIDEO = 0
    · have hv' := hvideo.1 hv
      have ht : (from_sdp_fill E r).2.type = PJMEDIA_TYPE_VIDEO := by
        simp only [from_sdp_fill, ha, hv, if_true, if_false]
        rw [from_sdp_dir_addr_type]
      refine ⟨⟨_, rfl, ⟨fun h => ?_, fun h => absurd h ha'⟩, ⟨fun _ => hv', fun _ => ht⟩⟩,
        fun _ h => absurd hv' h⟩
      rw [ht] at h
      cases h
    · have hv' : r.local_m.media.map pj_tolower ≠ "video".toList :=
        fun h => hv (hvideo.2 h)
      have hfill : from_sdp_fill E r =
          (error PJMEDIA_EINVALIMEDIATYPE,
            { zero_stream_info with type := PJMEDIA_TYPE_UNKNOWN }) := by
        simp only [from_sdp_fill, ha, hv, if_false]
      refine ⟨⟨_, rfl, ⟨fun h => ?_, fun h => absurd h ha'⟩,
        ⟨fun h => ?_, fun h => absurd h hv'⟩⟩, fun _ _ => ⟨by rw [hfill], rfl⟩⟩
      · rw [hfill] at h
        cases h
      · rw [hfill] at h
        cases h

/-- C17, witness: the type token `AUDIO` gives `PJMEDIA_TYPE_AUDIO`. -/
theorem media_type_resolution_witness :
    ∃ si, (pjmedia_stream_info_from_sdp (refEnv none) (sdp_of [ex_upper_audio])
        (sdp_of [ex_plain_0]) 0).2 = some si ∧ si.type = PJMEDIA_TYPE_AUDIO := by
  obtain ⟨si, hsi, haudio, -⟩ :=
    (media_type_resolution (refEnv none) (sdp_of [ex_upper_audio]) (sdp_of [ex_plain_0]) 0
      (ex_resolved ex_upper_audio ex_plain_0) rfl).1
  exact ⟨si, hsi, haudio.2 (by decide)⟩

/-- The codec step on a static payload type without a local rtpmap that
parses: the codec manager decides. -/
theorem from_sdp_codec_static_registry {E : Env} {r : Resolved} (si0 : pjmedia_stream_info)
    (hl : pj_isdigit (first_char (fmt0 r.local_m)) = true)
    (hr : pj_isdigit (first_char (fmt0 r.rem_m)) = true)
    (hlt : E.pj_strtoul (fmt0 r.local_m) < 96)
    (hno : E.pjmedia_sdp_media_find_attr r.local_m ID_RTPMAP (some (fmt0 r.local_m)) = none ∨
      ∃ attr e,
        E.pjmedia_sdp_media_find_attr r.local_m ID_RTPMAP (some (fmt0 r.local_m)) = some attr ∧
        E.pjmedia_sdp_attr_to_rtpmap attr = .error e) :
    from_sdp_codec E r si0 =
      match E.pjmedia_codec_mgr_get_codec_info (E.pj_strtoul (fmt0 r.local_m)) with
      | .error status => (error status, si0)
      | .ok fmt =>
        (PJ_SUCCESS,
          { si0 with
            fmt := fmt, tx_pt := E.pj_strtoul (fmt0 r.local_m),
            tx_event_pt := scan_event_pt E r.local_m.attr (-1),
            rx_event_pt := scan_event_pt E r.rem_m.attr (-1) }) := by
  rcases hno with hnone | ⟨attr, e, hattr, hparse⟩
  · simp only [from_sdp_codec, hl, hr, hlt, from_sdp_static, hnone, from_sdp_dtmf_eq,
      Bool.not_true, Bool.or_self, if_true, Bool.false_eq_true, if_false]
  · simp only [from_sdp_codec, hl, hr, hlt, from_sdp_static, hattr, hparse, from_sdp_dtmf_eq,
      Bool.not_true, Bool.or_self, if_true, Bool.false_eq_true, if_false]

/-- C13 as amended. When steps 1-4 pass, the local first format token is
numeric and below 96, the remote first format token begins with a digit, and
the local media line has no rtpmap for that number or one that fails to
parse: if the codec registry knows the payload number,
`pjmedia_stream_info_from_sdp` succeeds with exactly the registry's codec
info and `tx_pt` the payload number; if the registry lookup fails, the call
returns the registry's error unmodified. -/
theorem static_pt_registry_fallback (E : Env) (loc rem : pjmedia_sdp_session)
    (stream_idx : Nat) (r : Resolved)
    (h14 : passes_steps_1_4 E loc rem stream_idx r)
    (hl : all_digits (fmt0 r.local_m) = true)
    (hlt : E.pj_strtoul (fmt0 r.local_m) < 96)
    (hno : E.pjmedia_sdp_media_find_attr r.local_m ID_RTPMAP (some (fmt0 r.local_m)) = none ∨
      ∃ attr e,
        E.pjmedia_sdp_media_find_attr r.local_m ID_RTPMAP (some (fmt0 r.local_m)) = some attr ∧
        E.pjmedia_sdp_attr_to_rtpmap attr = .error e)
    (hr : pj_isdigit (first_char (fmt0 r.rem_m)) = true) :
    (∀ fmt, E.pjmedia_codec_mgr_get_codec_info (E.pj_strtoul (fmt0 r.local_m)) = .ok fmt →
      ∃ si, pjmedia_stream_info_from_sdp E loc rem stream_idx = (PJ_SUCCESS, some si) ∧
        si.fmt = fmt ∧ si.tx_pt = E.pj_strtoul (fmt0 r.local_m)) ∧
    (∀ e, E.pjmedia_codec_mgr_get_codec_info (E.pj_strtoul (fmt0 r.local_m)) = .error e →
      (pjmedia_stream_info_from_sdp E loc rem stream_idx).1 = error e) := by
  obtain ⟨si0, -, heq⟩ := from_sdp_of_steps h14
  have hcodec := from_sdp_codec_static_registry si0 (first_char_of_all_digits hl) hr hlt hno
  constructor
  · intro fmt hfmt
    rw [hfmt] at hcodec
    rw [heq, hcodec]
    exact ⟨_, rfl, rfl, rfl⟩
  · intro e he
    rw [he] at hcodec
    rw [heq, hcodec]

/-- C13, witness: local and remote `m=audio 49170 RTP/AVP 0` without rtpmap,
with `lookup(0) = {PCMU, 8000}`, give codec PCMU/8000 and `tx_pt = 0`; the
direction is `PJMEDIA_DIR_ENCODING_DECODING`. -/
theorem static_pt_registry_fallback_witness :
    (∃ si, pjmedia_stream_info_from_sdp (refEnv none) (sdp_of [ex_plain_0]) (sdp_of [ex_plain_0])
        0 = (PJ_SUCCESS, some si) ∧
      si.fmt = ⟨ PJMEDIA_TYPE_AUDIO, 0, "PCMU".toList, 8000⟩ ∧ si.tx_pt = 0) ∧
    (pjmedia_stream_info_from_sdp (refEnv none) (sdp_of [ex_plain_0]) (sdp_of [ex_plain_0])
        0).2.map (fun si => si.dir) = some PJMEDIA_DIR_ENCODING_DECODING :=
  ⟨(static_pt_registry_fallback (refEnv none) (sdp_of [ex_plain_0]) (sdp_of [ex_plain_0]) 0
      (ex_resolved ex_plain_0 ex_plain_0) ⟨rfl, Or.inl (by decide), by decide⟩ (by decide)
      (by decide) (Or.inl (by decide)) (by decide)).1 _ rfl,
    by decide⟩

/-- C13, counterexample: local `RTP/AVP 0` without rtpmap against remote
`RTP/AVP x`. Steps 1-4 pass and the registry knows payload type 0, but the
call returns `PJMEDIA_EINVALIDPT`. -/
theorem static_pt_registry_fallback_counterexample :
    passes_steps_1_4 (refEnv none) (sdp_of [ex_plain_0]) (sdp_of [ex_plain_x]) 0
        (ex_resolved ex_plain_0 ex_plain_x) ∧
      (refEnv none).pjmedia_sdp_media_find_attr ex_plain_0 ID_RTPMAP (some (fmt0 ex_plain_0)) =
        none ∧
      (refEnv none).pjmedia_codec_mgr_get_codec_info 0 =
        .ok ⟨ PJMEDIA_TYPE_AUDIO, 0, "PCMU".toList, 8000⟩ ∧
      (pjmedia_stream_info_from_sdp (refEnv none) (sdp_of [ex_plain_0]) (sdp_of [ex_plain_x])
        0).1 = error PJMEDIA_EINVALIDPT :=
  ⟨⟨rfl, Or.inl (by decide), by decide⟩, by decide, rfl, by decide⟩

/-! ## Pause, resume, destroy and enumeration -/

theorem pause_stream_in_range (E : Env) (session : pjmedia_session) (index : Nat)
    (dir : pjmedia_dir) (w : World) (s : Option pjmedia_stream)
    (hidx : index < session.stream_cnt) (hs : session.stream[index]? = some s) :
    pjmedia_session_pause_stream E (some session) index dir w =
      (Outcome.returns (E.pjmedia_stream_pause w s dir), w ++ [StreamCall.pause index s dir]) := by
  simp only [pjmedia_session_pause_stream, hidx, if_true, hs]

theorem resume_stream_in_range (E : Env) (session : pjmedia_session) (index : Nat)
    (dir : pjmedia_dir) (w : World) (s : Option pjmedia_stream)
    (hidx : index < session.stream_cnt) (hs : session.stream[index]? = some s) :
    pjmedia_session_resume_stream E (some session) index dir w =
      (Outcome.returns (E.pjmedia_stream_resume w s dir),
        w ++ [StreamCall.resume index s dir]) := by
  simp only [pjmedia_session_resume_stream, hidx, if_true, hs]

/-- The loop of `pjmedia_session_pause` calls pause on each of its `n` slots
in turn, whatever the calls return. -/
theorem pause_loop_eq (E : Env) (session : pjmedia_session) (dir : pjmedia_dir) (n i : Nat)
    (w : World) (hcnt : i + n ≤ session.stream_cnt) (hlen : i + n ≤ session.stream.length) :
    pause_loop E session dir n i w =
      (Outcome.returns (), w ++ pause_calls dir i ((session.stream.drop i).take n)) := by
  induction n generalizing i w with
  | zero => simp [pause_loop, pause_calls]
  | succ n ih =>
    have hi : i < session.stream.length := by omega
    rw [pause_loop, pause_stream_in_range E session i dir w session.stream[i] (by omega)
      (List.getElem?_eq_getElem hi)]
    simp only []
    rw [ih (i + 1) _ (by omega) (by omega), List.drop_eq_getElem_cons hi]
    simp [pause_calls]

/-- The loop of `pjmedia_session_resume` calls resume on each of its `n` slots
in turn, whatever the calls return. -/
theorem resume_loop_eq (E : Env) (session : pjmedia_session) (dir : pjmedia_dir) (n i : Nat)
    (w : World) (hcnt : i + n ≤ session.stream_cnt) (hlen : i + n ≤ session.stream.length) :
    resume_loop E session dir n i w =
      (Outcome.returns (), w ++ resume_calls dir i ((session.stream.drop i).take n)) := by
  induction n generalizing i w with
  | zero => simp [resume_loop, resume_calls]
  | succ n ih =>
    have hi : i < session.stream.length := by omega
    rw [resume_loop, resume_stream_in_range E session i dir w session.stream[i] (by omega)
      (List.getElem?_eq_getElem hi)]
    simp only []
    rw [ih (i + 1) _ (by omega) (by omega), List.drop_eq_getElem_cons hi]
    simp [resume_calls]

/-- C14. On a session whose `stream_cnt` streams lie within `stream[]`,
`pjmedia_session_pause` and `pjmedia_session_resume` return `PJ_SUCCESS`
after calling the per-stream pause (resume) with the given direction exactly
once on each slot `0 .. stream_cnt - 1`, in increasing order and on nothing
else, whatever the stream returns for each call. -/
theorem pause_resume_every_stream (E : Env) (session : pjmedia_session) (dir : pjmedia_dir)
    (w : World) (hwf : session.stream_cnt ≤ session.stream.length) :
    pjmedia_session_pause E (some session) dir w =
        (Outcome.returns PJ_SUCCESS,
          w ++ pause_calls dir 0 (session.stream.take session.stream_cnt)) ∧
      pjmedia_session_resume E (some session) dir w =
        (Outcome.returns PJ_SUCCESS,
          w ++ resume_calls dir 0 (session.stream.take session.stream_cnt)) := by
  constructor
  · simp only [pjmedia_session_pause]
    rw [pause_loop_eq E session dir session.stream_cnt 0 w (by omega) (by omega)]
    simp
  · simp only [pjmedia_session_resume]
    rw [resume_loop_eq E session dir session.stream_cnt 0 w (by omega) (by omega)]
    simp

/-- C14, witness: with a stream whose pause and resume always fail, both
streams of a two-stream session are still paused, and resumed, in order. -/
theorem pause_resume_every_stream_witness :
    pjmedia_session_pause refEnv_pause_fails (some ex_session) PJMEDIA_DIR_ENCODING [] =
        (Outcome.returns PJ_SUCCESS,
          [StreamCall.pause 0 (some ⟨1⟩) PJMEDIA_DIR_ENCODING,
            StreamCall.pause 1 (some ⟨2⟩) PJMEDIA_DIR_ENCODING]) ∧
      pjmedia_session_resume refEnv_pause_fails (some ex_session) PJMEDIA_DIR_ENCODING [] =
        (Outcome.returns PJ_SUCCESS,
          [StreamCall.resume 0 (some ⟨1⟩) PJMEDIA_DIR_ENCODING,
            StreamCall.resume 1 (some ⟨2⟩) PJMEDIA_DIR_ENCODING]) :=
  pause_resume_every_stream refEnv_pause_fails ex_session PJMEDIA_DIR_ENCODING []
    (by decide)

/-- C15. `pjmedia_session_pause_stream` and `pjmedia_session_resume_stream`
return `PJ_EINVAL` for every index at or above the session's `stream_cnt`
without calling the stream; for an index below `stream_cnt` (the streams lying
within `stream[]`) they call the stream's pause (resume) on `stream[index]`
with the given direction and return exactly what it returns. -/
theorem pause_resume_stream_index_checked (E : Env) (session : pjmedia_session)
    (index : Nat) (dir : pjmedia_dir) (w : World) :
    (session.stream_cnt ≤ index →
      pjmedia_session_pause_stream E (some session) index dir w =
          (Outcome.returns (error PJ_EINVAL), w) ∧
        pjmedia_session_resume_stream E (some session) index dir w =
          (Outcome.returns (error PJ_EINVAL), w)) ∧
    (∀ s, index < session.stream_cnt → session.stream[index]? = some s →
      pjmedia_session_pause_stream E (some session) index dir w =
          (Outcome.returns (E.pjmedia_stream_pause w s dir),
            w ++ [StreamCall.pause index s dir]) ∧
        pjmedia_session_resume_stream E (some session) index dir w =
          (Outcome.returns (E.pjmedia_stream_resume w s dir),
            w ++ [StreamCall.resume index s dir])) := by
  constructor
  · intro hge
    have hnlt : ¬ index < session.stream_cnt := Nat.not_lt.2 hge
    simp only [pjmedia_session_pause_stream, pjmedia_session_resume_stream, hnlt, if_false,
      and_self]
  · intro s hidx hs
    exact ⟨pause_stream_in_range E session index dir w s hidx hs,
      resume_stream_in_range E session index dir w s hidx hs⟩

/-- C15, witness: on a two-stream session, index 2 gives `PJ_EINVAL` without a
call, and index 1 gives the (failing) stream's own status. -/
theorem pause_resume_stream_index_checked_witness :
    pjmedia_session_pause_stream refEnv_pause_fails (some ex_session) 2 PJMEDIA_DIR_DECODING [] =
        (Outcome.returns (error PJ_EINVAL), []) ∧
      pjmedia_session_pause_stream refEnv_pause_fails (some ex_session) 1 PJMEDIA_DIR_DECODING
          [] =
        (Outcome.returns (error ref_ESTREAM),
          [StreamCall.pause 1 (some ⟨2⟩) PJMEDIA_DIR_DECODING]) :=
  ⟨((pause_resume_stream_index_checked refEnv_pause_fails ex_session 2 PJMEDIA_DIR_DECODING
      []).1 (by decide)).1,
    ((pause_resume_stream_index_checked refEnv_pause_fails ex_session 1 PJMEDIA_DIR_DECODING
      []).2 (some ⟨2⟩) (by decide) rfl).1⟩

/-- C11, evaluated where the claim fails: `pjmedia_session_create` with a
requested stream count of 1 over descriptions with two media lines creates
and starts the streams of slots 0 and 1; `pjmedia_session_destroy` then runs
to `session->stream_cnt = 1` and destroys slot 0 only. -/
theorem destroy_stops_at_requested_count :
    ∃ session w,
      pjmedia_session_create (refEnv none) 1 ex_skinfo ex_two_lines ex_two_lines 0 [] =
        (Outcome.returns (PJ_SUCCESS, some session), w) ∧
      created_indices w = [0, 1] ∧ started_indices w = [0, 1] ∧
      (pjmedia_session_destroy (some session) w).1 = Outcome.returns PJ_SUCCESS ∧
      destroyed_indices (pjmedia_session_destroy (some session) w).2 = [0] :=
  ⟨_, _, rfl, by decide, by decide, by decide, by decide⟩

/-- C12, evaluated where the claim fails: after a successful create of two
streams, `pjmedia_session_enum_streams` with `*count = 2` returns
`PJ_SUCCESS` and `*count = 2`, but `info[0]` is what the bytes at
`&session->stream[0]` spell, not `session->stream_info[0]`. -/
theorem enum_streams_copies_stream_slots :
    ∃ session w out,
      pjmedia_session_create (refEnv none) 2 ex_skinfo ex_two_lines ex_two_lines 0 [] =
        (Outcome.returns (PJ_SUCCESS, some session), w) ∧
      pjmedia_session_enum_streams (refEnv none) (some session) (some 2)
          (some (List.replicate 2 zero_stream_info)) =
        Outcome.returns (PJ_SUCCESS, some 2, some out) ∧
      out[0]? = (refEnv none).stream_slots_as_info (session.stream.drop 0) session.user_data ∧
      out[0]? ≠ session.stream_info[0]? :=
  ⟨_, _, _, rfl, rfl, by decide, by decide⟩

/-! ## `pjmedia_session_create`: the two loops -/

/-- An index outside the local or the remote description is refused before
anything is written. -/
theorem from_sdp_out_of_range (E : Env) (loc rem : pjmedia_sdp_session) (i : Nat)
    (h : loc.media.length ≤ i ∨ rem.media.length ≤ i) :
    pjmedia_stream_info_from_sdp E loc rem i = (error PJ_EINVAL, none) := by
  unfold pjmedia_stream_info_from_sdp resolve
  cases hl : loc.media[i]? with
  | none => rfl
  | some local_m =>
    rcases h with h | h
    · rw [List.getElem?_eq_none h] at hl
      cases hl
    · rw [List.getElem?_eq_none h]

theorem from_sdp_writes_in_range (E : Env) (loc rem : pjmedia_sdp_session) (i : Nat)
    (si : pjmedia_stream_info) (h : (pjmedia_stream_info_from_sdp E loc rem i).2 = some si) :
    i < loc.media.length ∧ i < rem.media.length := by
  by_contra hno
  have hor : loc.media.length ≤ i ∨ rem.media.length ≤ i := by omega
  rw [from_sdp_out_of_range E loc rem i hor] at h
  cases h

theorem from_sdp_success_writes (E : Env) (loc rem : pjmedia_sdp_session) (i : Nat)
    (h : (pjmedia_stream_info_from_sdp E loc rem i).1 = PJ_SUCCESS) :
    ∃ si, (pjmedia_stream_info_from_sdp E loc rem i).2 = some si := by
  unfold pjmedia_stream_info_from_sdp at h ⊢
  cases hres : resolve loc rem i with
  | error e =>
    rw [hres] at h
    cases h
  | ok r => exact ⟨_, rfl⟩

/-- Below `2 ^ 31` the cast `(int)stream_cnt` keeps the value. -/
theorem int_of_unsigned_toNat (n : Nat) (h : n < 2 ^ 31) : (int_of_unsigned n).toNat = n := by
  have h1 : n % 2 ^ 32 = n := Nat.mod_eq_of_lt (by omega)
  unfold int_of_unsigned
  rw [h1, if_pos h]
  simp

theorem store_info_props (session s1 : pjmedia_session) (i : Nat)
    (x : Option pjmedia_stream_info) (h : store_info session i x = some s1) :
    s1.stream_cnt = session.stream_cnt ∧ s1.stream = session.stream ∧
      s1.user_data = session.user_data ∧
      s1.stream_info.length = session.stream_info.length := by
  cases x with
  | none =>
    simp only [store_info, Option.some.injEq] at h
    subst h
    exact ⟨rfl, rfl, rfl, rfl⟩
  | some si =>
    simp only [store_info] at h
    split at h
    · simp only [Option.some.injEq] at h
      subst h
      exact ⟨rfl, rfl, rfl, by simp⟩
    · cases h

/-- The first loop stops at the lowest index whose negotiation fails and
returns that status. -/
theorem create_negotiate_fails (E : Env) (sk : List pjmedia_sock_info)
    (loc rem : pjmedia_sdp_session) (i0 : Nat)
    (hfail : (pjmedia_stream_info_from_sdp E loc rem i0).1 ≠ PJ_SUCCESS)
    (hlow : ∀ j, j < i0 → (pjmedia_stream_info_from_sdp E loc rem j).1 = PJ_SUCCESS)
    (hsk : i0 ≤ sk.length) :
    ∀ (n i : Nat) (session : pjmedia_session), i ≤ i0 → i0 < i + n →
      loc.media.length ≤ session.stream_info.length →
      ∃ s', create_negotiate E sk loc rem n i session =
        Outcome.returns ((pjmedia_stream_info_from_sdp E loc rem i0).1, s') := by
  intro n
  induction n with
  | zero =>
    intro i session h1 h2
    omega
  | succ n ih =>
    intro i session hle hlt hcap
    unfold create_negotiate
    rcases Nat.eq_or_lt_of_le hle with heq | hlt'
    · subst heq
      cases hw : (pjmedia_stream_info_from_sdp E loc rem i).2 with
      | none =>
        simp only [store_info]
        rw [if_pos hfail]
        exact ⟨_, rfl⟩
      | some si =>
        have hin := (from_sdp_writes_in_range E loc rem i si hw).1
        have hlt2 : i < session.stream_info.length := by omega
        simp only [store_info, hlt2, if_true]
        rw [if_pos hfail]
        exact ⟨_, rfl⟩
    · have hs := hlow i hlt'
      obtain ⟨si, hw⟩ := from_sdp_success_writes E loc rem i hs
      have hin := (from_sdp_writes_in_range E loc rem i si hw).1
      have hlt2 : i < session.stream_info.length := by omega
      have h1 : (session.stream_info.set i si)[i]? = some si := by simp [hlt2]
      have h2 : sk[i]? = some sk[i] := List.getElem?_eq_getElem (by omega)
      simp only [hw, store_info, hlt2, if_true, hs, ne_eq, not_true_eq_false, if_false, h1, h2]
      exact ih (i + 1) _ (by omega) (by omega) (by simpa using hcap)

/-- When the first loop ends with `PJ_SUCCESS`, every index it went through
negotiated, and it changed nothing of the session but `stream_info[]`. -/
theorem create_negotiate_success (E : Env) (sk : List pjmedia_sock_info)
    (loc rem : pjmedia_sdp_session) :
    ∀ (n i : Nat) (session s' : pjmedia_session),
      create_negotiate E sk loc rem n i session = Outcome.returns (PJ_SUCCESS, s') →
      (∀ j, i ≤ j → j < i + n → (pjmedia_stream_info_from_sdp E loc rem j).1 = PJ_SUCCESS) ∧
        s'.stream_cnt = session.stream_cnt ∧ s'.stream = session.stream ∧
        s'.stream_info.length = session.stream_info.length := by
  intro n
  induction n with
  | zero =>
    intro i session s' h
    simp only [create_negotiate, Outcome.returns.injEq, Prod.mk.injEq, true_and] at h
    subst h
    exact ⟨fun j h1 h2 => by omega, rfl, rfl, rfl⟩
  | succ n ih =>
    intro i session s' h
    unfold create_negotiate at h
    cases hst : store_info session i (pjmedia_stream_info_from_sdp E loc rem i).2 with
    | none =>
      rw [hst] at h
      cases h
    | some s1 =>
      rw [hst] at h
      obtain ⟨hc1, hs1, -, hl1⟩ := store_info_props session s1 i _ hst
      by_cases hs : (pjmedia_stream_info_from_sdp E loc rem i).1 = PJ_SUCCESS
      · simp only [hs, ne_eq, not_true_eq_false, if_false] at h
        cases hsi : s1.stream_info[i]? with
        | none =>
          rw [hsi] at h
          cases h
        | some si =>
          cases hski : sk[i]? with
          | none =>
            rw [hsi, hski] at h
            cases h
          | some ski =>
            rw [hsi, hski] at h
            obtain ⟨hall, hc, hstream, hlen⟩ := ih (i + 1) _ s' h
            refine ⟨?_, ?_, ?_, ?_⟩
            · intro j hj1 hj2
              rcases Nat.eq_or_lt_of_le hj1 with heq | hlt
              · rw [← heq]
                exact hs
              · exact hall j (by omega) (by omega)
            · rw [hc]
              exact hc1
            · rw [hstream]
              exact hs1
            · rw [hlen]
              simpa using hl1
      · simp only [ne_eq, hs, not_false_eq_true, if_true, Outcome.returns.injEq,
          Prod.mk.injEq] at h
        exact h.1.elim

theorem created_indices_append (w v : World) :
    created_indices (w ++ v) = created_indices w ++ created_indices v := by
  simp [created_indices, List.filterMap_append]

theorem started_indices_append (w v : World) :
    started_indices (w ++ v) = started_indices w ++ started_indices v := by
  simp [started_indices, List.filterMap_append]

/-- When the second loop ends with `PJ_SUCCESS`, it has called create and
start once for each of its `n` indices, in increasing order. -/
theorem create_streams_success (E : Env) :
    ∀ (n i : Nat) (session : pjmedia_session) (w : World) (s' : pjmedia_session) (w' : World),
      create_streams E n i session w = (Outcome.returns (PJ_SUCCESS, s'), w') →
      created_indices w' = created_indices w ++ List.range' i n ∧
        started_indices w' = started_indices w ++ List.range' i n ∧
        s'.stream_cnt = session.stream_cnt := by
  intro n
  induction n with
  | zero =>
    intro i session w s' w' h
    simp only [create_streams, Prod.mk.injEq, Outcome.returns.injEq, true_and] at h
    obtain ⟨hs, hw⟩ := h
    subst hs
    subst hw
    simp
  | succ n ih =>
    intro i session w s' w' h
    unfold create_streams at h
    cases hsi : session.stream_info[i]? with
    | none =>
      rw [hsi] at h
      cases h
    | some si =>
      rw [hsi] at h
      by_cases hlt : i < session.stream.length
      · simp only [hlt, if_true] at h
        cases hc : E.pjmedia_stream_create w si with
        | error status =>
          rw [hc] at h
          simp only [] at h
          cases hrb : create_rollback session ((i : Int) - 1) (w ++ [StreamCall.create i si]) with
          | mk o w2 =>
            rw [hrb] at h
            cases o with
            | undefined => cases h
            | returns u =>
              simp only [Prod.mk.injEq, Outcome.returns.injEq] at h
              cases h.1.1
        | ok s =>
          rw [hc] at h
          simp only [] at h
          cases hst : E.pjmedia_stream_start (w ++ [StreamCall.create i si]) (some s) with
          | PJ_SUCCESS =>
            rw [hst] at h
            simp only [] at h
            obtain ⟨h1, h2, h3⟩ := ih (i + 1) _ _ s' w' h
            refine ⟨?_, ?_, ?_⟩
            · rw [h1, created_indices_append, created_indices_append]
              simp [created_indices, List.range'_succ]
            · rw [h2, started_indices_append, started_indices_append]
              simp [started_indices, List.range'_succ]
            · rw [h3]
          | error status =>
            rw [hst] at h
            simp only [] at h
            cases hrb : create_rollback
                { session with stream := session.stream.set i (some s) } ((i : Int) - 1)
                (w ++ [StreamCall.create i si] ++ [StreamCall.start i (some s)]) with
            | mk o w2 =>
              rw [hrb] at h
              cases o with
              | undefined => cases h
              | returns u =>
                simp only [Prod.mk.injEq, Outcome.returns.injEq] at h
                cases h.1.1
      · simp only [hlt, if_false] at h
        cases h

/-- The definition of `pjmedia_session_create` for a requested count that is
not zero, with the loop bound written as a maximum. -/
theorem pjmedia_session_create_eq (E : Env) (stream_cnt : Nat) (sk : List pjmedia_sock_info)
    (loc rem : pjmedia_sdp_session) (user_data : Nat) (w : World) (hpos : 0 < stream_cnt)
    (hrange : max stream_cnt loc.media.length < 2 ^ 31) :
    pjmedia_session_create E stream_cnt sk loc rem user_data w =
      match create_negotiate E sk loc rem (max stream_cnt loc.media.length) 0
          (new_session E stream_cnt user_data) with
      | .undefined => (.undefined, w)
      | .returns (error status, _) => (.returns (error status, none), w)
      | .returns (PJ_SUCCESS, session) =>
        match create_streams E (max stream_cnt loc.media.length) 0 session w with
        | (.undefined, w) => (.undefined, w)
        | (.returns (error status, _), w) => (.returns (error status, none), w)
        | (.returns (PJ_SUCCESS, session), w) => (.returns (PJ_SUCCESS, some session), w) := by
  have hne : stream_cnt ≠ 0 := by omega
  have hmax : (if stream_cnt < loc.media.length then loc.media.length else stream_cnt) =
      max stream_cnt loc.media.length := by
    split <;> omega
  unfold pjmedia_session_create
  rw [if_neg hne]
  simp only [hmax, int_of_unsigned_toNat _ hrange]

/-- A successful `pjmedia_session_create` had a requested count above zero and
ran both loops to their end. -/
theorem create_success_inv (E : Env) (stream_cnt : Nat) (sk : List pjmedia_sock_info)
    (loc rem : pjmedia_sdp_session) (user_data : Nat) (w : World) (session : pjmedia_session)
    (w' : World) (hrange : max stream_cnt loc.media.length < 2 ^ 31)
    (h : pjmedia_session_create E stream_cnt sk loc rem user_data w =
      (Outcome.returns (PJ_SUCCESS, some session), w')) :
    0 < stream_cnt ∧
      ∃ s1, create_negotiate E sk loc rem (max stream_cnt loc.media.length) 0
          (new_session E stream_cnt user_data) = Outcome.returns (PJ_SUCCESS, s1) ∧
        create_streams E (max stream_cnt loc.media.length) 0 s1 w =
          (Outcome.returns (PJ_SUCCESS, session), w') := by
  have hpos : 0 < stream_cnt := by
    by_contra hz
    have hz' : stream_cnt = 0 := by omega
    simp only [pjmedia_session_create, hz', if_true, Prod.mk.injEq, Outcome.returns.injEq] at h
    cases h.1.1
  refine ⟨hpos, ?_⟩
  rw [pjmedia_session_create_eq E stream_cnt sk loc rem user_data w hpos hrange] at h
  cases hneg : create_negotiate E sk loc rem (max stream_cnt loc.media.length) 0
      (new_session E stream_cnt user_data) with
  | undefined =>
    rw [hneg] at h
    cases h
  | returns p =>
    obtain ⟨st, s1⟩ := p
    rw [hneg] at h
    cases st with
    | error e =>
      simp only [Prod.mk.injEq, Outcome.returns.injEq] at h
      cases h.1.1
    | PJ_SUCCESS =>
      refine ⟨s1, rfl, ?_⟩
      simp only [] at h
      cases hstr : create_streams E (max stream_cnt loc.media.length) 0 s1 w with
      | mk o w2 =>
        rw [hstr] at h
        cases o with
        | undefined => cases h
        | returns q =>
          obtain ⟨st2, s2⟩ := q
          cases st2 with
          | error e =>
            simp only [Prod.mk.injEq, Outcome.returns.injEq] at h
            cases h.1.1
          | PJ_SUCCESS =>
            simp only [Prod.mk.injEq, Outcome.returns.injEq, Option.some.injEq,
              true_and] at h
            obtain ⟨hs, hw⟩ := h
            subst hs
            subst hw
            rfl

/-- C18. For a requested count above zero, counts in the range of `int`, a
local description within `PJMEDIA_MAX_SDP_MEDIA` and a socket info for every
media line below `i0`: if `i0` is the lowest index below the effective stream
count whose negotiation fails, `pjmedia_session_create` returns exactly the
status of that negotiation, stores no session, and has made no call to the
stream object (the call history is unchanged): every media line is
negotiated before any stream is created. -/
theorem create_negotiation_failure (E : Env) (stream_cnt : Nat)
    (sk : List pjmedia_sock_info) (loc rem : pjmedia_sdp_session) (user_data : Nat)
    (w : World) (i0 : Nat)
    (hpos : 0 < stream_cnt)
    (hrange : max stream_cnt loc.media.length < 2 ^ 31)
    (hcap : loc.media.length ≤ E.PJMEDIA_MAX_SDP_MEDIA)
    (hsk : i0 ≤ sk.length)
    (hi0 : i0 < max stream_cnt loc.media.length)
    (hfail : (pjmedia_stream_info_from_sdp E loc rem i0).1 ≠ PJ_SUCCESS)
    (hlow : ∀ j, j < i0 → (pjmedia_stream_info_from_sdp E loc rem j).1 = PJ_SUCCESS) :
    pjmedia_session_create E stream_cnt sk loc rem user_data w =
      (Outcome.returns ((pjmedia_stream_info_from_sdp E loc rem i0).1, none), w) := by
  rw [pjmedia_session_create_eq E stream_cnt sk loc rem user_data w hpos hrange]
  obtain ⟨s', hneg⟩ := create_negotiate_fails E sk loc rem i0 hfail hlow hsk
    (max stream_cnt loc.media.length) 0 (new_session E stream_cnt user_data) (by omega)
    (by omega) (by simpa [new_session] using hcap)
  rw [hneg]
  cases hst : (pjmedia_stream_info_from_sdp E loc rem i0).1 with
  | PJ_SUCCESS => exact absurd hst hfail
  | error e => rfl

/-- C18, witness: two media lines of which the second has the media type
`text`; create returns `PJMEDIA_EINVALIMEDIATYPE`, no session, and the stream
object has received no call. -/
theorem create_negotiation_failure_witness :
    pjmedia_session_create (refEnv none) 2 ex_skinfo ex_audio_text ex_audio_text 0 [] =
      (Outcome.returns (error PJMEDIA_EINVALIMEDIATYPE, none), []) :=
  create_negotiation_failure (refEnv none) 2 ex_skinfo ex_audio_text ex_audio_text 0 [] 1
    (by decide) (by decide) (by decide) (by decide) (by decide) (by decide)
    (fun j hj => by
      have hj0 : j = 0 := by omega
      subst hj0
      decide)

/-- C19. For counts in the range of `int`: when `pjmedia_session_create`
succeeds, every media line below `max(stream_cnt, local media count)` has
negotiated, and create and start have been called once for each of these
indices, in increasing order and for no other - also when the requested
count is below the number of local media lines. -/
theorem create_count_is_max (E : Env) (stream_cnt : Nat) (sk : List pjmedia_sock_info)
    (loc rem : pjmedia_sdp_session) (user_data : Nat) (w : World) (session : pjmedia_session)
    (w' : World) (hrange : max stream_cnt loc.media.length < 2 ^ 31)
    (h : pjmedia_session_create E stream_cnt sk loc rem user_data w =
      (Outcome.returns (PJ_SUCCESS, some session), w')) :
    (∀ i, i < max stream_cnt loc.media.length →
      (pjmedia_stream_info_from_sdp E loc rem i).1 = PJ_SUCCESS) ∧
    created_indices w' =
      created_indices w ++ List.range (max stream_cnt loc.media.length) ∧
    started_indices w' =
      started_indices w ++ List.range (max stream_cnt loc.media.length) := by
  obtain ⟨-, s1, hneg, hstr⟩ :=
    create_success_inv E stream_cnt sk loc rem user_data w session w' hrange h
  obtain ⟨hall, -, -, -⟩ := create_negotiate_success E sk loc rem _ 0 _ s1 hneg
  obtain ⟨hc, hs, -⟩ := create_streams_success E _ 0 s1 w session w' hstr
  refine ⟨fun i hi => hall i (Nat.zero_le i) (by omega), ?_, ?_⟩
  · rw [hc, List.range_eq_range']
  · rw [hs, List.range_eq_range']

/-- C19, witness: a requested count of 1 over two local media lines creates
and starts two streams. -/
theorem create_count_is_max_witness :
    ∃ session w',
      pjmedia_session_create (refEnv none) 1 ex_skinfo ex_two_lines ex_two_lines 0 [] =
        (Outcome.returns (PJ_SUCCESS, some session), w') ∧
      created_indices w' = [0, 1] ∧ started_indices w' = [0, 1] :=
  ⟨_, _, rfl,
    (create_count_is_max (refEnv none) 1 ex_skinfo ex_two_lines ex_two_lines 0 [] _ _
      (by decide) rfl).2⟩

/-- C20 as amended. `pjmedia_stream_info_from_sdp` returns `PJ_EINVAL` for any
index at or above the local or the remote media-line count. For counts in the
range of `int`, `pjmedia_session_create` can therefore succeed only if
`0 < stream_cnt <= local count <= remote count`. Whenever the requested count
exceeds the local count, or the remote description has fewer media lines than
the local one (the local description within `PJMEDIA_MAX_SDP_MEDIA`, a socket
info for every media line present on both sides), create fails, stores no
session and makes no call to the stream object; the status is `PJ_EINVAL` when
every media line present on both sides negotiates, and otherwise the status
of the lowest media line that does not. -/
theorem create_requires_matching_counts (E : Env) (stream_cnt : Nat)
    (sk : List pjmedia_sock_info) (loc rem : pjmedia_sdp_session) (user_data : Nat)
    (w : World) (hrange : max stream_cnt loc.media.length < 2 ^ 31) :
    (∀ idx, loc.media.length ≤ idx ∨ rem.media.length ≤ idx →
      pjmedia_stream_info_from_sdp E loc rem idx = (error PJ_EINVAL, none)) ∧
    (∀ session w', pjmedia_session_create E stream_cnt sk loc rem user_data w =
        (Outcome.returns (PJ_SUCCESS, some session), w') →
      0 < stream_cnt ∧ stream_cnt ≤ loc.media.length ∧
        loc.media.length ≤ rem.media.length) ∧
    ((loc.media.length < stream_cnt ∨ rem.media.length < loc.media.length) →
      loc.media.length ≤ E.PJMEDIA_MAX_SDP_MEDIA →
      min loc.media.length rem.media.length ≤ sk.length →
      ∃ e, pjmedia_session_create E stream_cnt sk loc rem user_data w =
          (Outcome.returns (error e, none), w) ∧
        ((∀ j, j < min loc.media.length rem.media.length →
            (pjmedia_stream_info_from_sdp E loc rem j).1 = PJ_SUCCESS) → e = PJ_EINVAL) ∧
        (∀ j, j < min loc.media.length rem.media.length →
            (pjmedia_stream_info_from_sdp E loc rem j).1 ≠ PJ_SUCCESS →
            (∀ k, k < j → (pjmedia_stream_info_from_sdp E loc rem k).1 = PJ_SUCCESS) →
            0 < stream_cnt →
            error e = (pjmedia_stream_info_from_sdp E loc rem j).1)) := by
  refine ⟨from_sdp_out_of_range E loc rem, ?_, ?_⟩
  · intro session w' h
    obtain ⟨hpos, s1, hneg, -⟩ :=
      create_success_inv E stream_cnt sk loc rem user_data w session w' hrange h
    obtain ⟨hall, -, -, -⟩ := create_negotiate_success E sk loc rem _ 0 _ s1 hneg
    have hin : ∀ i, i < max stream_cnt loc.media.length →
        i < loc.media.length ∧ i < rem.media.length := by
      intro i hi
      obtain ⟨si, hsi⟩ := from_sdp_success_writes E loc rem i (hall i (Nat.zero_le i) (by omega))
      exact from_sdp_writes_in_range E loc rem i si hsi
    have h1 := hin (max stream_cnt loc.media.length - 1) (by omega)
    refine ⟨hpos, by omega, ?_⟩
    by_cases hl0 : loc.media.length = 0
    · omega
    · have h2 := hin (loc.media.length - 1) (by omega)
      omega
  · intro hcnt hcap hsk
    by_cases hpos : 0 < stream_cnt
    · -- the first index outside one of the descriptions fails, so some index fails
      have hm : (pjmedia_stream_info_from_sdp E loc rem
          (min loc.media.length rem.media.length)).1 ≠ PJ_SUCCESS := by
        rw [from_sdp_out_of_range E loc rem _ (by omega)]
        exact fun h => by cases h
      have hex : ∃ j, (pjmedia_stream_info_from_sdp E loc rem j).1 ≠ PJ_SUCCESS := ⟨_, hm⟩
      have hfail := Nat.find_spec hex
      have hle : Nat.find hex ≤ min loc.media.length rem.media.length := Nat.find_min' hex hm
      have hlow : ∀ j, j < Nat.find hex →
          (pjmedia_stream_info_from_sdp E loc rem j).1 = PJ_SUCCESS := by
        intro j hj
        exact not_not.1 (Nat.find_min hex hj)
      obtain ⟨s', hneg⟩ := create_negotiate_fails E sk loc rem (Nat.find hex) hfail hlow
        (by omega) (max stream_cnt loc.media.length) 0 (new_session E stream_cnt user_data)
        (by omega) (by omega) (by simpa [new_session] using hcap)
      rw [pjmedia_session_create_eq E stream_cnt sk loc rem user_data w hpos hrange, hneg]
      cases hst : (pjmedia_stream_info_from_sdp E loc rem (Nat.find hex)).1 with
      | PJ_SUCCESS => exact absurd hst hfail
      | error e =>
        refine ⟨e, rfl, ?_, ?_⟩
        · intro hall
          have heq : Nat.find hex = min loc.media.length rem.media.length := by
            rcases Nat.eq_or_lt_of_le hle with h | h
            · exact h
            · exact absurd (hall _ h) hfail
          rw [heq, from_sdp_out_of_range E loc rem _ (by omega)] at hst
          exact (pj_status_t.error.inj hst).symm
        · intro j _ hj hk _
          have hjeq : Nat.find hex = j := by
            rcases Nat.lt_trichotomy (Nat.find hex) j with h | h | h
            · exact absurd (hk _ h) hfail
            · exact h
            · exact absurd (hlow j h) hj
          rw [← hjeq, hst]
    · have hz : stream_cnt = 0 := by omega
      refine ⟨PJ_EINVAL, ?_, fun _ => rfl, fun j _ _ _ h0 => absurd h0 hpos⟩
      simp only [pjmedia_session_create, hz, if_true]

/-- C20, witness: a requested count of 2 over one local media line, which
negotiates, returns `PJ_EINVAL` and makes no call to the stream object. -/
theorem create_requires_matching_counts_witness :
    pjmedia_session_create (refEnv none) 2 ex_skinfo ex_one_line ex_one_line 0 [] =
      (Outcome.returns (error PJ_EINVAL, none), []) := by
  obtain ⟨e, hcreate, hall, -⟩ :=
    (create_requires_matching_counts (refEnv none) 2 ex_skinfo ex_one_line ex_one_line 0 []
      (by decide)).2.2 (Or.inl (by decide)) (by decide) (by decide)
  have he : e = PJ_EINVAL := hall (fun j hj => by
    have hj0 : j = 0 := by
      have : min ex_one_line.media.length ex_one_line.media.length = 1 := by decide
      omega
    subst hj0
    decide)
  rw [hcreate, he]

/-- C20, counterexample: a requested count of 2 over one local media line
whose media type is `text`. The requested count exceeds the local media-line
count, but create fails with `PJMEDIA_EINVALIMEDIATYPE`, the status of media
line 0, not with `PJ_EINVAL`. -/
theorem create_requires_matching_counts_counterexample :
    ex_text_only.media.length < 2 ∧
      pjmedia_session_create (refEnv none) 2 ex_skinfo ex_text_only ex_text_only 0 [] =
        (Outcome.returns (error PJMEDIA_EINVALIMEDIATYPE, none), []) :=
  ⟨by decide, by decide⟩

end PjMedia
